import Mathlib

/-!
# Verification of the slide-generation backend (`backend/app`)

A shallow embedding, in Lean 4, of the core services of the repository:

* `app/services/images.py` — legacy Stability image service
  (`build_prompt`, the module cache `_cache_get`/`_cache_set`,
  `generate_image_for_slide`, `generate_images`);
* `app/services/image_providers/stability.py` and `dalle.py` — the
  provider-adapter classes (`generate_image`, per-instance cache);
* `app/services/image_providers/__init__.py` — `ImageProviderFactory`;
* `app/services/llm.py` — `_select_model`, `_extract_first_json_object`,
  `_call_openrouter`, `generate_outline`;
* `app/services/pptx.py` — `build_pptx` (progress-callback behaviour).

External effects (HTTP requests, file writes, JSON bodies produced by the
network, pydantic constructions over wire data) are abstracted as
*environment oracles*: each network attempt receives a record describing
the outcome of every effectful step, and the embedding reproduces the
Python control flow (try/except dispatch, tenacity retry policy, cache
threading) over those outcomes.  Machine time is a `Nat` timestamp.
-/

set_option autoImplicit false

namespace PPTX

/-! ## Data model (`app/models/slides.py`) -/

/-- `ImageMeta` from `app/models/slides.py`: `url`, `alt_text` (alias
`altText`), `provider`.  URLs are plain strings in the embedding. -/
structure ImageMeta where
  url : String
  altText : String
  provider : String
deriving Repr, DecidableEq, Inhabited

/-- `SlidePlan` from `app/models/slides.py`: `title`, `bullets`,
optional `image`, optional `notes`. -/
structure SlidePlan where
  title : String
  bullets : List String
  image : Option ImageMeta := none
  notes : Option String := none
deriving Repr, DecidableEq, Inhabited

/-- `ChatRequest` from `app/models/chat.py`. -/
structure ChatRequest where
  prompt : String
  slideCount : Nat
  language : String
  model : Option String := none
  context : Option String := none
deriving Repr, DecidableEq, Inhabited

/-- `ChatResponse` from `app/models/chat.py`. -/
structure ChatResponse where
  slides : List SlidePlan
  sessionId : Option String := none
deriving Repr, DecidableEq, Inhabited

/-- The configuration fields of `app/core/config.py::Settings` that the
embedded services read.  An optional string field set to `none` or
`some ""` is falsy in Python (`if not settings.X`). -/
structure Settings where
  openrouterApiKey : Option String := none
  openrouterDefaultModel : String := "openai/gpt-4o-mini"
  openrouterAllowedModels : List String := ["openai/gpt-4o-mini", "openai/gpt-4o"]
  openrouterRequireUpstream : Bool := false
  stabilityApiKey : Option String := none
  stabilityPlaceholderUrl : String := "https://placehold.co/600x400"
  publicBaseUrl : String := "http://localhost:8000"
  staticUrlPath : String := "/static"
  staticImagesSubdir : String := "images"
  imageCacheTtlSeconds : Nat := 1800
  imageCacheMaxEntries : Nat := 256
  imageMaxConcurrency : Nat := 4
deriving Repr, Inhabited

/-- Python truthiness of an optional string setting (`if not settings.X`). -/
def optStrFalsy : Option String → Bool
  | none => true
  | some s => s = ""

/-! `stability.py:24` reads `settings.STABILITY_ENGINE_ID`, `dalle.py:22`
reads `settings.OPENAI_BASE_URL` (then further `OPENAI_*` fields), and
every placeholder path of `dalle.py` reads
`settings.DALLE_PLACEHOLDER_URL`.  `config.py` declares none of these
fields, and pydantic-settings ignores extra values, so each of these
accesses raises `AttributeError`. -/

/-- `settings.STABILITY_ENGINE_ID` — undeclared, raises. -/
def settingsStabilityEngineId : Except String String :=
  .error ("AttributeError: STABILITY_ENGINE_ID")

/-- `settings.OPENAI_BASE_URL` — undeclared, raises. -/
def settingsOpenaiBaseUrl : Except String String :=
  .error ("AttributeError: OPENAI_BASE_URL")

/-- `settings.DALLE_PLACEHOLDER_URL` — undeclared, raises. -/
def settingsDallePlaceholderUrl : Except String String :=
  .error ("AttributeError: DALLE_PLACEHOLDER_URL")

/-! ## String helpers used by the services -/

/-- Python `s.split()` — split on runs of whitespace, dropping empties. -/
def pySplitWs (s : String) : List String :=
  (s.split Char.isWhitespace).filter (fun w => w ≠ "")

/-- Python `" ".join(base.split()).strip().lower()` — the normalization
applied to image prompts for use as cache keys (`images.py:44`,
`stability.py:49`, `dalle.py:52`).  After collapsing whitespace the
`strip()` is a no-op, so it is whitespace-collapse plus lowercase. -/
def pyNormalize (s : String) : String :=
  (String.intercalate (" ") (pySplitWs s)).toLower

/-- Python `"; ".join(slide.bullets)`. -/
def joinSemicolon (xs : List String) : String :=
  String.intercalate ("; ") xs

/-- Python `s.rstrip('/')` — drop all trailing slash characters. -/
def rstripSlash (s : String) : String :=
  String.mk (s.toList.reverse.dropWhile (fun c => c = '/')).reverse

/-! ## The adapter response cache

`images.py:53-76` keeps a module-level `dict[str, tuple[float, ImageMeta]]`;
`stability.py:98-114` and `dalle.py:97-113` keep the same structure per
provider instance.  A Python `dict` is modelled as an association list in
insertion order with unique keys; `d[k] = v` updates in place when the key
is present (keeping its position) and appends otherwise. -/

/-- The cache state: entries `(key, (timestamp, value))` in insertion order. -/
abbrev Cache := List (String × Nat × ImageMeta)

/-- `dict.get(key)`. -/
def dictGet (c : Cache) (k : String) : Option (Nat × ImageMeta) :=
  (List.find? (fun e => e.1 = k) c).map (fun e => e.2)

/-- `dict.pop(key, None)` (only the resulting dict is used by the code). -/
def dictPop (c : Cache) (k : String) : Cache :=
  List.filter (fun e => ¬ (e.1 = k)) c

/-- `d[key] = v`: in-place update when present, append otherwise. -/
def dictSet (c : Cache) (k : String) (v : Nat × ImageMeta) : Cache :=
  if List.any c (fun e => e.1 = k) then
    List.map (fun e => if e.1 = k then (k, v) else e) c
  else
    List.append c [(k, v)]

/-- `min(_cache.keys(), key=lambda k: _cache[k][0])` — the entry of minimal
timestamp; Python `min` keeps the first among ties (dict iteration order =
insertion order). -/
def oldestEntry : List (String × Nat × ImageMeta) → Option (String × Nat × ImageMeta)
  | [] => none
  | e :: rest =>
    match oldestEntry rest with
    | none => some e
    | some m => if m.2.1 < e.2.1 then some m else some e

/-- `_cache_get` (`images.py:55-66`, identically `stability.py:98-107`,
`dalle.py:97-106`): absent → `None`; present but older than the TTL →
remove and `None`; otherwise the cached value.  Returns the value and the
resulting cache state. -/
def cache_get (s : Settings) (c : Cache) (k : String) (now : Nat) :
    Option ImageMeta × Cache :=
  match dictGet c k with
  | none => (none, c)
  | some (ts, v) =>
    if s.imageCacheTtlSeconds < now - ts then (none, dictPop c k)
    else (some v, c)

/-- `_cache_set` (`images.py:68-76`, identically `stability.py:109-114`,
`dalle.py:108-113`): when `len(_cache) >= IMAGE_CACHE_MAX_ENTRIES`, pop the
entry of minimal timestamp, then insert `(now, v)` under `k`.  (`min` over
an empty dict would raise in Python; that point is reachable only with
`IMAGE_CACHE_MAX_ENTRIES = 0`, and the no-eviction behaviour is taken.) -/
def cache_set (s : Settings) (c : Cache) (k : String) (v : ImageMeta) (now : Nat) :
    Cache :=
  let c' :=
    if s.imageCacheMaxEntries ≤ List.length c then
      match oldestEntry c with
      | some e => dictPop c e.1
      | none => c
    else c
  dictSet c' k (now, v)

/-! ## JSON values and `json.loads`

`llm.py` extracts JSON objects from model output with `json.loads`.  The
embedding uses a standard JSON value type and a recursive-descent parser
(fuelled).  The number grammar is restricted to (signed) integers; string
escapes cover the JSON escape set including `\uXXXX`.  None of the theorems
below depend on completeness of the number grammar. -/

inductive Json where
  | null
  | bool (b : Bool)
  | num (n : Int)
  | str (s : String)
  | arr (elems : List Json)
  | obj (fields : List (String × Json))
deriving Repr, Inhabited

/-- Whether a parsed value is a JSON object (`isinstance(parsed_obj, dict)`
on the Python side). -/
def Json.isObj : Json → Bool
  | .obj _ => true
  | _ => false

/-- The `'{'` character, written via its code point. -/
def braceOpen : Char := Char.ofNat 123

/-- The `'}'` character, written via its code point. -/
def braceClose : Char := Char.ofNat 125

/-- The backtick character, written via its code point. -/
def btick : Char := Char.ofNat 96

def skipWs (cs : List Char) : List Char := cs.dropWhile Char.isWhitespace

def hexVal (c : Char) : Option Nat :=
  if '0' ≤ c ∧ c ≤ '9' then some (c.toNat - 48)
  else if 'a' ≤ c ∧ c ≤ 'f' then some (c.toNat - 87)
  else if 'A' ≤ c ∧ c ≤ 'F' then some (c.toNat - 55)
  else none

/-- Body of a JSON string literal (after the opening quote): returns the
decoded characters and the remainder after the closing quote. -/
def parseStrBody : List Char → Option (List Char × List Char)
  | [] => none
  | '"' :: rest => some ([], rest)
  | '\\' :: 'u' :: a :: b :: c :: d :: rest =>
    match hexVal a, hexVal b, hexVal c, hexVal d with
    | some ha, some hb, some hc, some hd =>
      (parseStrBody rest).map
        (fun p => (Char.ofNat (((ha * 16 + hb) * 16 + hc) * 16 + hd) :: p.1, p.2))
    | _, _, _, _ => none
  | '\\' :: e :: rest =>
    let dec : Option Char :=
      if e = '"' then some '"'
      else if e = '\\' then some '\\'
      else if e = '/' then some '/'
      else if e = 'n' then some '\n'
      else if e = 't' then some '\t'
      else if e = 'r' then some '\r'
      else if e = 'b' then some (Char.ofNat 8)
      else if e = 'f' then some (Char.ofNat 12)
      else none
    match dec with
    | some c => (parseStrBody rest).map (fun p => (c :: p.1, p.2))
    | none => none
  | c :: rest => (parseStrBody rest).map (fun p => (c :: p.1, p.2))

def digitsToNat (ds : List Char) : Nat :=
  ds.foldl (fun acc c => acc * 10 + (c.toNat - 48)) 0

def parseNatLit (cs : List Char) : Option (Nat × List Char) :=
  let p := cs.span Char.isDigit
  if p.1 = [] then none else some (digitsToNat p.1, p.2)

def parseIntLit : List Char → Option (Int × List Char)
  | '-' :: rest => (parseNatLit rest).map (fun p => (-(p.1 : Int), p.2))
  | cs => (parseNatLit cs).map (fun p => ((p.1 : Int), p.2))

mutual

def parseVal : Nat → List Char → Option (Json × List Char)
  | 0, _ => none
  | fuel + 1, cs₀ =>
    match skipWs cs₀ with
    | [] => none
    | '"' :: rest => (parseStrBody rest).map (fun p => (Json.str (String.mk p.1), p.2))
    | 't' :: 'r' :: 'u' :: 'e' :: rest => some (Json.bool true, rest)
    | 'f' :: 'a' :: 'l' :: 's' :: 'e' :: rest => some (Json.bool false, rest)
    | 'n' :: 'u' :: 'l' :: 'l' :: rest => some (Json.null, rest)
    | '[' :: rest =>
      match skipWs rest with
      | ']' :: rest' => some (Json.arr [], rest')
      | _ => (parseElems fuel rest).map (fun p => (Json.arr p.1, p.2))
    | c :: rest =>
      if c = braceOpen then
        match skipWs rest with
        | c' :: rest' =>
          if c' = braceClose then some (Json.obj [], rest')
          else (parseMembers fuel rest).map (fun p => (Json.obj p.1, p.2))
        | [] => none
      else parseIntLit (c :: rest) |>.map (fun p => (Json.num p.1, p.2))

def parseMembers : Nat → List Char → Option (List (String × Json) × List Char)
  | 0, _ => none
  | fuel + 1, cs =>
    match skipWs cs with
    | '"' :: rest =>
      match parseStrBody rest with
      | none => none
      | some (key, rest₁) =>
        match skipWs rest₁ with
        | ':' :: rest₂ =>
          match parseVal fuel rest₂ with
          | none => none
          | some (v, rest₃) =>
            match skipWs rest₃ with
            | ',' :: rest₄ =>
              (parseMembers fuel rest₄).map
                (fun p => ((String.mk key, v) :: p.1, p.2))
            | c :: rest₄ =>
              if c = braceClose then some ([(String.mk key, v)], rest₄) else none
            | [] => none
        | _ => none
    | _ => none

def parseElems : Nat → List Char → Option (List Json × List Char)
  | 0, _ => none
  | fuel + 1, cs =>
    match parseVal fuel cs with
    | none => none
    | some (v, rest) =>
      match skipWs rest with
      | ',' :: rest' => (parseElems fuel rest').map (fun p => (v :: p.1, p.2))
      | ']' :: rest' => some ([v], rest')
      | _ => none

end

/-- `json.loads`: parse the whole string as a single JSON value (leading
and trailing whitespace allowed), failure otherwise. -/
def json_loads (s : String) : Option Json :=
  let cs := s.toList
  match parseVal (cs.length + 1) cs with
  | some (j, rest) => if skipWs rest = [] then some j else none
  | none => none

/-! ## `_extract_first_json_object` (`llm.py:88-135`) -/

/-- Does the list start with three backticks? -/
def tripleBtickAt : List Char → Bool
  | a :: b :: c :: _ => a = btick ∧ b = btick ∧ c = btick
  | _ => false

/-- Match the fence opener "\x60\x60\x60json" (letters case-insensitive,
per `re.IGNORECASE`) at the head, returning the remainder. -/
def fenceOpenSplit : List Char → Option (List Char)
  | a :: b :: c :: j :: s :: o :: n :: rest =>
    if a = btick ∧ b = btick ∧ c = btick ∧ j.toLower = 'j' ∧ s.toLower = 's'
        ∧ o.toLower = 'o' ∧ n.toLower = 'n' then
      some rest
    else none
  | _ => none

/-- The characters strictly before the first closing triple backtick,
`none` when no closing fence exists. -/
def beforeClose : List Char → Option (List Char)
  | [] => none
  | c :: rest =>
    if tripleBtickAt (c :: rest) then some []
    else (beforeClose rest).map (fun l => c :: l)

/-- `re.search(...)` for the fence pattern of `llm.py:104`: the earliest
occurrence of the opener that is followed by a closing fence; the captured
group (with the surrounding greedy/lazy whitespace) amounts to the content
between the fences, trimmed. -/
def fencedSearch : List Char → Option (List Char)
  | [] => none
  | c :: rest =>
    match fenceOpenSplit (c :: rest) with
    | some after =>
      match beforeClose after with
      | some content => some content
      | none => fencedSearch rest
    | none => fencedSearch rest

/-- The trimmed content of the first fenced `json` block, if any. -/
def fencedContent (text : String) : Option String :=
  (fencedSearch text.toList).map (fun l => (String.mk l).trim)

/-- The inner loop of `llm.py:115-131`: starting at a position, walk the
characters counting brace depth; the candidate is the prefix up to (and
including) the character at which the depth first returns to zero. -/
def braceWalk : List Char → Int → List Char → Option (List Char)
  | [], _, _ => none
  | c :: rest, depth, acc =>
    if c = braceOpen then braceWalk rest (depth + 1) (c :: acc)
    else if c = braceClose then
      let d := depth - 1
      if d = 0 then some (List.reverse (c :: acc)) else braceWalk rest d (c :: acc)
    else braceWalk rest depth (c :: acc)

/-- The outer loop of `llm.py:114-132`: scan start positions left to
right; at each opening brace, take the first depth-balanced candidate and
try to parse it; on parse failure (`break`) resume at the next opening
brace (`text.find` from `start + 1`). -/
def braceScan : List Char → Option Json
  | [] => none
  | c :: rest =>
    if c = braceOpen then
      match braceWalk (c :: rest) 0 [] with
      | some candidate =>
        match json_loads (String.mk candidate) with
        | some j => some j
        | none => braceScan rest
      | none => braceScan rest
    else braceScan rest

/-- `_extract_first_json_object` (`llm.py:88-135`): direct parse, then the
fenced code block, then the balanced-brace scan; `(False, None)` when all
three fail. -/
def _extract_first_json_object (text : String) : Bool × Option Json :=
  match json_loads text with
  | some j => (true, some j)
  | none =>
    let viaFence : Option Json :=
      match fencedContent text with
      | some inner => json_loads inner
      | none => none
    match viaFence with
    | some j => (true, some j)
    | none =>
      match braceScan text.toList with
      | some j => (true, some j)
      | none => (false, none)

/-- Strategy (a) of the spec's `PARSE_RESPONSE`: direct whole-body parse. -/
def strategyDirect (t : String) : Option Json := json_loads t

/-- Strategy (b): parse of the content inside a fenced code block. -/
def strategyFenced (t : String) : Option Json := (fencedContent t).bind json_loads

/-- Strategy (c): parse of the first balanced brace-delimited substring
found scanning left to right. -/
def strategyScan (t : String) : Option Json := braceScan t.toList

/-! ## Exceptions of the outline service (`llm.py`)

Python exceptions are modelled structurally; `raise X from e` keeps the
cause as data, mirroring `__cause__`. -/

inductive LlmExc where
  /-- `LLMError(f"Model '...' is not allowed")` from `_select_model`. -/
  | disallowedModel (model : String)
  /-- `LLMError("Rate limited by upstream. Retry-After: ...")`. -/
  | rateLimited (retryAfter : Option String)
  /-- `LLMError("Malformed LLM response: no JSON content")`. -/
  | malformed
  /-- `httpx.HTTPStatusError` from `raise_for_status()`. -/
  | httpStatus (status : Nat)
  /-- An `httpx` transport error (network failure, timeout). -/
  | netErr (msg : String)
  /-- `resp.json()` failed to decode. -/
  | jsonDecode
  /-- An exception inside `_parse_response` (pydantic validation etc.). -/
  | parseErr (msg : String)
  /-- `LLMError(f"LLM HTTP error: ...") from e` (`llm.py:232`). -/
  | wrapHttp (cause : LlmExc)
  /-- `LLMError(f"LLM request failed: ...") from e` (`llm.py:235`). -/
  | wrapFailed (cause : LlmExc)
deriving Repr, Inhabited

/-- `isinstance(e, LLMError)`. -/
def LlmExc.isLLMError : LlmExc → Bool
  | .disallowedModel _ => true
  | .rateLimited _ => true
  | .malformed => true
  | .wrapHttp _ => true
  | .wrapFailed _ => true
  | _ => false

/-- `isinstance(e, httpx.HTTPError)`. -/
def LlmExc.isHttpxError : LlmExc → Bool
  | .httpStatus _ => true
  | .netErr _ => true
  | _ => false

/-- Follow the `__cause__` chain to the originating exception. -/
def LlmExc.rootCause : LlmExc → LlmExc
  | .wrapHttp c => c.rootCause
  | .wrapFailed c => c.rootCause
  | e => e

/-! ## `_select_model` and `_parse_response` (`llm.py:44-50, 65-86`) -/

/-- `_select_model` (`llm.py:44-50`): the requested model (falsy →
configured default); if the allow-list is non-empty and the model is not
in it, raise `LLMError` before any network interaction. -/
def _select_model (s : Settings) (requested : Option String) : Except LlmExc String :=
  let model :=
    match requested with
    | none => s.openrouterDefaultModel
    | some m => if m = "" then s.openrouterDefaultModel else m
  if s.openrouterAllowedModels ≠ [] ∧ model ∉ s.openrouterAllowedModels then
    .error (.disallowedModel model)
  else .ok model

/-- Field lookup in a JSON object. -/
def jGet (fields : List (String × Json)) (k : String) : Option Json :=
  (List.find? (fun e => e.1 = k) fields).map (fun e => e.2)

/-- Pydantic validation of `ImageMeta` (`app/models/slides.py:10-17`,
strict mode, `populate_by_name`): `url` must be an http(s) URL (the
`HttpUrl` check is approximated as requiring an `http://` or `https://`
prefix), `alt_text` accepts the alias `altText` or the field name, and
`provider` is a string. -/
def validate_image_meta (j : Json) : Except String ImageMeta :=
  match j with
  | .obj fs =>
    match jGet fs ("url"), jGet fs ("altText") <|> jGet fs ("alt_text"), jGet fs ("provider") with
    | some (.str u), some (.str a), some (.str p) =>
      if u.startsWith ("http://") || u.startsWith ("https://") then
        .ok { url := u, altText := a, provider := p }
      else .error ("ImageMeta.url")
    | _, _, _ => .error ("ImageMeta")
  | _ => .error ("ImageMeta")

/-- Pydantic validation of `SlidePlan` (`app/models/slides.py:20-35`,
strict): `title` a string of 1–100 characters; `bullets` under the alias
choices `bullets`/`body`, a non-empty list of strings of 1–200 characters;
optional `image` (validated `ImageMeta`) and `notes` (string). -/
def validate_slide_plan (j : Json) : Except String SlidePlan :=
  match j with
  | .obj fs =>
    match jGet fs ("title") with
    | some (.str t) =>
      if 1 ≤ t.length ∧ t.length ≤ 100 then
        match jGet fs ("bullets") <|> jGet fs ("body") with
        | some (.arr items) =>
          match items.mapM (fun b => match b with
              | Json.str s => if 1 ≤ s.length ∧ s.length ≤ 200 then some s else none
              | _ => none) with
          | some bullets =>
            if bullets.isEmpty then .error ("SlidePlan.bullets: empty")
            else
              let imageRes : Except String (Option ImageMeta) :=
                match jGet fs ("image") with
                | none => .ok none
                | some .null => .ok none
                | some v => (validate_image_meta v).map some
              match imageRes with
              | .error m => .error m
              | .ok img =>
                match jGet fs ("notes") with
                | none => .ok { title := t, bullets := bullets, image := img, notes := none }
                | some .null => .ok { title := t, bullets := bullets, image := img, notes := none }
                | some (.str nt) => .ok { title := t, bullets := bullets, image := img, notes := some nt }
                | some _ => .error ("SlidePlan.notes")
          | none => .error ("SlidePlan.bullets")
        | _ => .error ("SlidePlan.bullets: missing")
      else .error ("SlidePlan.title: length")
    | _ => .error ("SlidePlan.title")
  | _ => .error ("SlidePlan")

/-- `_parse_response` (`llm.py:65-85`): `data.get("slides", [])`, validate
each slide as a `SlidePlan`, and build `ChatResponse` with the optional
`sessionId`.  A non-dict argument or invalid slide raises (here: `.error`),
which the caller's `except` clauses classify. -/
def _parse_response (data : Json) : Except String ChatResponse :=
  match data with
  | .obj fs =>
    let slidesRaw : Except String (List Json) :=
      match jGet fs ("slides") with
      | none => .ok []
      | some (.arr xs) => .ok xs
      | some _ => .error ("slides: not a list")
    match slidesRaw with
    | .error m => .error m
    | .ok raw =>
      match raw.mapM validate_slide_plan with
      | .error m => .error m
      | .ok slides =>
        match jGet fs ("sessionId") with
        | none => .ok { slides := slides, sessionId := none }
        | some .null => .ok { slides := slides, sessionId := none }
        | some (.str sid) => .ok { slides := slides, sessionId := some sid }
        | some _ => .error ("sessionId")
  | _ => .error ("AttributeError: get")

/-! ## Tenacity (`@retry`) -/

/-- The observable outcome of a tenacity-wrapped call. -/
inductive RunResult (ε α : Type) where
  /-- The wrapped function returned normally. -/
  | ok (a : α)
  /-- An attempt raised an exception the retry predicate refuses to
  retry; tenacity re-raises it as-is. -/
  | raised (e : ε)
  /-- `stop_after_attempt` exhausted; tenacity raises `RetryError`
  wrapping the last attempt's exception (`reraise` is left at its
  default `False` everywhere in this repository). -/
  | retriesExhausted (e : ε)
deriving Repr

/-- `@retry(stop=stop_after_attempt(n), ...)` around a state-threading
attempt: run attempts in order; a success returns at once; an exception
failing `shouldRetry` is re-raised; otherwise retry until the attempt
budget is exhausted, then raise `RetryError`.  Returns the outcome, the
final state, and the number of attempts executed.  (The `0` budget case
is unreachable: every `@retry` in the repository uses
`stop_after_attempt(3)`.) -/
def tenacityRun {σ ε α : Type} [Inhabited ε] (shouldRetry : ε → Bool)
    (attempt : Nat → σ → Except ε α × σ) :
    Nat → Nat → σ → RunResult ε α × σ × Nat
  | 0, _, st => (.raised default, st, 0)
  | rem + 1, idx, st =>
    match attempt idx st with
    | (.ok a, st') => (.ok a, st', 1)
    | (.error e, st') =>
      if shouldRetry e then
        match rem with
        | 0 => (.retriesExhausted e, st', 1)
        | rem' + 1 =>
          let r := tenacityRun shouldRetry attempt (rem' + 1) (idx + 1) st'
          (r.1, r.2.1, r.2.2 + 1)
      else (.raised e, st', 1)

/-! ## `_call_openrouter` and `generate_outline` (`llm.py:137-276`) -/

/-- An upstream HTTP response as the services observe it: status code and
the `Retry-After` header. -/
structure HttpResp where
  status : Nat
  retryAfter : Option String := none
deriving Repr, Inhabited

/-- The outcomes of the effectful steps of one attempt of
`_call_openrouter`.  `chatContent` stands for `chat_resp.json()` followed
by the `.get` chain extracting `choices[0].message.content` (missing keys
default to `""`; only a JSON-decode failure raises).  `genData` stands for
`resp.json()` on the legacy `/generate` response. -/
structure LlmAttemptEnv where
  chatPost : Except String HttpResp
  chatContent : Except String String
  genPost : Except String HttpResp
  genData : Except String Json

/-- A single attempt of `_call_openrouter` (`llm.py:138-235`): the primary
chat-completions call, whose failure of any kind (`except Exception`,
`llm.py:206`) triggers the legacy `/generate` fallback, whose own failure
is classified by `llm.py:230-235`.  Returns the result together with the
number of upstream HTTP requests issued. -/
def chatAttempt (s : Settings) (req : ChatRequest) (env : LlmAttemptEnv) :
    Except LlmExc ChatResponse × Nat :=
  let primary : Except LlmExc ChatResponse × Nat :=
    match _select_model s req.model with
    | .error e => (.error e, 0)
    | .ok _ =>
      match env.chatPost with
      | .error msg => (.error (.netErr msg), 1)
      | .ok resp =>
        if resp.status = 429 then (.error (.rateLimited resp.retryAfter), 1)
        else if 400 ≤ resp.status then (.error (.httpStatus resp.status), 1)
        else
          match env.chatContent with
          | .error _ => (.error .jsonDecode, 1)
          | .ok content =>
            match _extract_first_json_object content with
            | (ok, some j) =>
              if ok ∧ j.isObj then
                match _parse_response j with
                | .ok r => (.ok r, 1)
                | .error m => (.error (.parseErr m), 1)
              else (.error .malformed, 1)
            | (_, none) => (.error .malformed, 1)
  match primary with
  | (.ok r, n) => (.ok r, n)
  | (.error _, n) =>
    let fb : Except LlmExc ChatResponse × Nat :=
      match _select_model s req.model with
      | .error e => (.error e, 0)
      | .ok _ =>
        match env.genPost with
        | .error msg => (.error (.netErr msg), 1)
        | .ok resp =>
          if resp.status = 429 then (.error (.rateLimited resp.retryAfter), 1)
          else if 400 ≤ resp.status then (.error (.httpStatus resp.status), 1)
          else
            match env.genData with
            | .error _ => (.error .jsonDecode, 1)
            | .ok data =>
              match _parse_response data with
              | .ok r => (.ok r, 1)
              | .error m => (.error (.parseErr m), 1)
    match fb with
    | (.ok r, m) => (.ok r, n + m)
    | (.error e, m) =>
      if e.isHttpxError then (.error (.wrapHttp e), n + m)
      else (.error (.wrapFailed e), n + m)

/-- `_call_openrouter` (`llm.py:137`): the attempt wrapped by
`@retry(stop=stop_after_attempt(3), ...)` with no retry predicate, i.e.
every exception is retried.  The threaded state is the number of upstream
HTTP requests issued so far.  Result: outcome, total request count,
attempts executed. -/
def _call_openrouter (s : Settings) (req : ChatRequest) (envs : Nat → LlmAttemptEnv) :
    RunResult LlmExc ChatResponse × Nat × Nat :=
  tenacityRun (fun _ => true)
    (fun idx calls =>
      let r := chatAttempt s req (envs idx)
      (r.1, calls + r.2))
    3 0 0

/-- `isinstance(e, (LLMError, RetryError))` at `llm.py:264` — applied to a
`RunResult` outcome. -/
def caughtByGenerateOutline : RunResult LlmExc ChatResponse → Bool
  | .raised e => e.isLLMError
  | .retriesExhausted _ => true
  | .ok _ => false

/-- The deterministic offline outline (`llm.py:252-255` and `271-275`):
`count` slides titled sequentially, each with the single bullet. -/
def offline_outline (count : Nat) : ChatResponse :=
  { slides :=
      (List.range count).map
        (fun i => { title := "Slide " ++ toString (i + 1), bullets := ["Bullet"] }) }

/-- `generate_outline` (`llm.py:238-276`): with no API key, return the
offline outline immediately (no upstream interaction); otherwise call
`_call_openrouter`, and on `LLMError`/`RetryError` either re-raise
(`OPENROUTER_REQUIRE_UPSTREAM`) or fall back to the offline outline.
Result: outcome and number of upstream HTTP requests issued. -/
def generate_outline (s : Settings) (req : ChatRequest) (envs : Nat → LlmAttemptEnv) :
    RunResult LlmExc ChatResponse × Nat :=
  if optStrFalsy s.openrouterApiKey then
    (.ok (offline_outline req.slideCount), 0)
  else
    match _call_openrouter s req envs with
    | (.ok r, calls, _) => (.ok r, calls)
    | (res, calls, _) =>
      if caughtByGenerateOutline res then
        if s.openrouterRequireUpstream then (res, calls)
        else (.ok (offline_outline req.slideCount), calls)
      else (res, calls)

/-! ## The legacy image service (`app/services/images.py`) -/

/-- Exceptions of the image services. -/
inductive ImgExc where
  /-- `ImageError`, optionally chaining the exception it wraps. -/
  | imageError (msg : String) (cause : Option ImgExc)
  /-- `httpx.HTTPStatusError` from `raise_for_status()`. -/
  | httpStatus (status : Nat)
  /-- An `httpx` transport error. -/
  | netErr (msg : String)
  /-- A pydantic/JSON/attribute error while building or parsing. -/
  | validationErr (msg : String)
  /-- An OS error while saving image bytes. -/
  | osErr (msg : String)
  /-- `AttributeError` from accessing a settings field that `config.py`
  does not declare (e.g. `DALLE_PLACEHOLDER_URL`). -/
  | attributeErr (name : String)
deriving Repr, Inhabited

/-- `isinstance(e, ImageError)`. -/
def ImgExc.isImageError : ImgExc → Bool
  | .imageError _ _ => true
  | _ => false

/-- `isinstance(e, httpx.HTTPError)`. -/
def ImgExc.isHttpxError : ImgExc → Bool
  | .httpStatus _ => true
  | .netErr _ => true
  | _ => false

/-- `build_prompt` (`images.py:38-46`), identical to
`StabilityProvider._build_prompt` (`stability.py:42-51`): title and
joined bullets, the style suffix when the style is truthy, then the
whitespace/case normalization for cache keys. -/
def build_prompt (slide : SlidePlan) (style : Option String) : String :=
  let bullets := joinSemicolon slide.bullets
  let base := "Title: " ++ slide.title ++ ". Bullets: " ++ bullets ++ "."
  let base :=
    match style with
    | some st => if st = "" then base else base ++ " Style: " ++ st ++ "."
    | none => base
  pyNormalize base

/-- The placeholder `ImageMeta` of the legacy service and the Stability
provider: `ImageMeta(url=settings.STABILITY_PLACEHOLDER_URL,
alt_text=slide.title, provider="placeholder")`. -/
def placeholderMeta (s : Settings) (alt : String) : ImageMeta :=
  { url := s.stabilityPlaceholderUrl, altText := alt, provider := "placeholder" }

/-- Constructing `ImageMeta(...)` on a URL obtained at run time: pydantic
validates `url: HttpUrl` (approximated as the http(s)-prefix check) and
raises on failure. -/
def mkImageMeta (url alt provider : String) : Except String ImageMeta :=
  if url.startsWith ("http://") || url.startsWith ("https://") then
    .ok { url := url, altText := alt, provider := provider }
  else .error ("ImageMeta.url")

/-- The outcomes of the effectful steps of one attempt of
`generate_image_for_slide` (`images.py:84-189`).
`payloadBuild` is `_build_stability_payload`, i.e. the pydantic
construction `StabilityGenerationRequest(prompt=..., stylePreset=...)`
(note the model in `app/models/stability.py` requires `text_prompts`, so
in the concrete repository this construction fails; the embedding keeps
the outcome abstract).  `v2jsonUrl` is the value `data.url or ''` of the
inner try at `images.py:151-164` when that block reaches it, `none` when
any step of the block raises.  `legacyUrl` is the corresponding value for
the legacy-JSON path (`images.py:172-174`), `.error` when `resp.json()`
or `StabilityGenerationResponse(**...)` or the `data.url` access
raises. -/
structure LegacyImgEnv where
  payloadBuild : Except String Unit
  post1 : Except String HttpResp
  v2post : Except String HttpResp
  v2contentIsImage : Bool
  v2save : Except String String
  v2jsonUrl : Option String
  legacyUrl : Except String String
  now : Nat
deriving Inhabited

/-- The `except` clauses of `generate_image_for_slide`
(`images.py:183-189`): `httpx.HTTPError` resolves to the placeholder,
every other exception is re-raised as `ImageError`. -/
def legacyExceptClauses (s : Settings) (alt : String) :
    Except ImgExc ImageMeta × Cache → Except ImgExc ImageMeta × Cache
  | (.ok m, c) => (.ok m, c)
  | (.error e, c) =>
    if e.isHttpxError then (.ok (placeholderMeta s alt), c)
    else (.error (.imageError ("Image request failed") (some e)), c)

/-- The `except` clauses of `StabilityProvider.generate_image`
(`stability.py:185-190`): every exception resolves to the placeholder
(`STABILITY_PLACEHOLDER_URL` is a declared setting). -/
def stabilityExceptClauses (ph : ImageMeta) :
    Except ImgExc ImageMeta × Cache → Except ImgExc ImageMeta × Cache
  | (.ok m, c) => (.ok m, c)
  | (.error _, c) => (.ok ph, c)

/-- The `except` clauses of `DalleProvider.generate_image`
(`dalle.py:184-189`): both handlers construct
`ImageMeta(url=settings.DALLE_PLACEHOLDER_URL, ...)`, and since
`config.py` declares no `DALLE_PLACEHOLDER_URL`
(`settingsDallePlaceholderUrl` raises), the handler itself raises
`AttributeError`, which escapes the method. -/
def dalleExceptClauses :
    Except ImgExc ImageMeta × Cache → Except ImgExc ImageMeta × Cache
  | (.ok m, c) => (.ok m, c)
  | (.error _, c) =>
    match settingsDallePlaceholderUrl with
    | .ok url => (.ok { url := url, altText := "", provider := "placeholder" }, c)
    | .error msg => (.error (.attributeErr msg), c)

/-- The `try` body of one attempt of `generate_image_for_slide`
(`images.py:89-181`): the legacy `/images/generations` call and the
`v2beta` fallback on 404.  A 429 raises `ImageError` inside the `try`
(`images.py:105-107` and `130-132`) and is therefore re-wrapped by the
second `except` clause. -/
def legacyAttemptBody (s : Settings) (slide : SlidePlan) (env : LegacyImgEnv)
    (prompt : String) (c : Cache) : Except ImgExc ImageMeta × Cache :=
      match env.payloadBuild with
      | .error m => (.error (.validationErr m), c)
      | .ok _ =>
        match env.post1 with
        | .error m => (.error (.netErr m), c)
        | .ok resp =>
          if resp.status = 429 then
            (.error (.imageError ("Rate limited by Stability API") none), c)
          else if resp.status = 404 then
            match env.v2post with
            | .error m => (.error (.netErr m), c)
            | .ok v2 =>
              if v2.status = 429 then
                (.error (.imageError ("Rate limited by Stability API") none), c)
              else if 400 ≤ v2.status then (.error (.httpStatus v2.status), c)
              else if env.v2contentIsImage then
                match env.v2save with
                | .error m => (.error (.osErr m), c)
                | .ok filename =>
                  let publicUrl := s.publicBaseUrl ++ s.staticUrlPath ++ "/"
                    ++ s.staticImagesSubdir ++ "/" ++ filename
                  match mkImageMeta publicUrl slide.title ("stability-ai") with
                  | .error m => (.error (.validationErr m), c)
                  | .ok meta => (.ok meta, cache_set s c prompt meta env.now)
              else
                match env.v2jsonUrl with
                | none => (.ok (placeholderMeta s slide.title), c)
                | some raw =>
                  let url := rstripSlash raw
                  if url = "" then (.ok (placeholderMeta s slide.title), c)
                  else
                    match mkImageMeta url slide.title ("stability-ai") with
                    | .error _ => (.ok (placeholderMeta s slide.title), c)
                    | .ok meta => (.ok meta, cache_set s c prompt meta env.now)
          else if 400 ≤ resp.status then (.error (.httpStatus resp.status), c)
          else
            match env.legacyUrl with
            | .error m => (.error (.validationErr m), c)
            | .ok raw =>
              let url := rstripSlash raw
              if url = "" then (.ok (placeholderMeta s slide.title), c)
              else
                match mkImageMeta url slide.title ("stability-ai") with
                | .error m => (.error (.validationErr m), c)
                | .ok meta => (.ok meta, cache_set s c prompt meta env.now)

/-- One attempt of `generate_image_for_slide` (`images.py:84-189`): the
cache lookup (`prompt` is the normalized cache key), the request body,
and the two `except` clauses. -/
def legacyAttempt (s : Settings) (slide : SlidePlan) (style : Option String)
    (env : LegacyImgEnv) (cache : Cache) : Except ImgExc ImageMeta × Cache :=
  match cache_get s cache (build_prompt slide style) env.now with
  | (some m, c) => (.ok m, c)
  | (none, c) =>
    legacyExceptClauses s slide.title
      (legacyAttemptBody s slide env (build_prompt slide style) c)

/-- `generate_image_for_slide` (`images.py:79-189`): the attempt wrapped
by `@retry(stop=stop_after_attempt(3), ...,
retry=retry_if_exception(lambda e: not isinstance(e, ImageError)))` — an
`ImageError` is re-raised without retrying. -/
def generate_image_for_slide (s : Settings) (slide : SlidePlan) (style : Option String)
    (envs : Nat → LegacyImgEnv) (cache : Cache) :
    RunResult ImgExc ImageMeta × Cache × Nat :=
  tenacityRun (fun e => !e.isImageError)
    (fun idx c => legacyAttempt s slide style (envs idx) c) 3 0 cache

/-! ## `generate_images` (`images.py:191-223`)

Each slide's task `_one` runs under a semaphore and observes some state of
the shared module cache; the interleaving is abstracted by giving each
task the cache state it observes and by running completions in an
arbitrary order (`asyncio.gather` stores every task's result at the
task's own index). -/

/-- What one slide's task observes: the per-attempt environments of its
`generate_image_for_slide` call and the cache state at its start. -/
structure ImgTaskEnv where
  attempts : Nat → LegacyImgEnv
  cache : Cache
deriving Inhabited

/-- `_one` (`images.py:202-214`): run `generate_image_for_slide`; an
`ImageError` or any other exception (including tenacity's `RetryError`)
becomes the placeholder for that slide only. -/
def generateImagesOne (s : Settings) (style : Option String)
    (slide : SlidePlan) (env : ImgTaskEnv) : ImageMeta :=
  match (generate_image_for_slide s slide style env.attempts env.cache).1 with
  | .ok m => m
  | .raised _ => placeholderMeta s slide.title
  | .retriesExhausted _ => placeholderMeta s slide.title

/-- The result store of `asyncio.gather`: tasks complete in the order
given by `order`, each writing its result into its own slot. -/
def gatherFill (results : List ImageMeta) : List Nat → List (Option ImageMeta) →
    List (Option ImageMeta)
  | [], slots => slots
  | i :: rest, slots =>
    gatherFill results rest
      (match results[i]? with
       | some v => slots.set i (some v)
       | none => slots)

/-- `asyncio.gather(*tasks)` (`images.py:216-217`): every task's result in
slot order, whatever the completion order. -/
def asyncGather (results : List ImageMeta) (order : List Nat) : List ImageMeta :=
  (gatherFill results order (List.replicate results.length none)).map
    (fun o => o.getD default)

/-- `generate_images` (`images.py:191-223`): without a Stability API key,
the placeholder list (`images.py:195-197`); otherwise one task per slide
gathered index-preservingly. -/
def generate_images (s : Settings) (slides : List SlidePlan) (style : Option String)
    (envs : List ImgTaskEnv) (order : List Nat) : List ImageMeta :=
  if optStrFalsy s.stabilityApiKey then
    slides.map (fun sl => placeholderMeta s sl.title)
  else
    asyncGather ((slides.zip envs).map (fun p => generateImagesOne s style p.1 p.2)) order

/-! ## The provider adapters (`stability.py`, `dalle.py`) -/

/-- `ImageArtifact` (`app/models/stability.py:44-56`). -/
structure ImageArtifact where
  base64 : String
  seed : Nat
  finishReason : String
deriving Repr, Inhabited

/-- `StabilityGenerationResponse` (`app/models/stability.py:59-69`). -/
structure StabilityResp where
  artifacts : List ImageArtifact
deriving Repr, Inhabited

/-- The outcomes of the effectful steps of one attempt of
`StabilityProvider.generate_image` (`stability.py:120-190`): the POST,
the pydantic parse `StabilityGenerationResponse(**response.json())`, and
`_save_image` (which on success yields the generated filename). -/
structure StabilityEnv where
  post : Except String HttpResp
  respParse : Except String StabilityResp
  save : Except String String
  now : Nat
deriving Inhabited

/-- The `try` body of one attempt of `StabilityProvider.generate_image`
(`stability.py:129-183`). -/
def stabilityAttemptBody (s : Settings) (slide : SlidePlan) (env : StabilityEnv)
    (prompt : String) (c : Cache) : Except ImgExc ImageMeta × Cache :=
      match env.post with
      | .error m => (.error (.netErr m), c)
      | .ok resp =>
        if resp.status = 429 then (.ok (placeholderMeta s slide.title), c)
        else if resp.status = 400 then (.ok (placeholderMeta s slide.title), c)
        else if 400 ≤ resp.status then (.error (.httpStatus resp.status), c)
        else
          match env.respParse with
          | .error m => (.error (.validationErr m), c)
          | .ok data =>
            match data.artifacts with
            | [] => (.ok (placeholderMeta s slide.title), c)
            | artifact :: _ =>
              if artifact.finishReason ≠ "SUCCESS" then
                (.ok (placeholderMeta s slide.title), c)
              else
                match env.save with
                | .error m => (.error (.osErr m), c)
                | .ok filename =>
                  let publicUrl := s.publicBaseUrl ++ s.staticUrlPath ++ "/"
                    ++ s.staticImagesSubdir ++ "/" ++ filename
                  match mkImageMeta publicUrl slide.title ("stability-ai") with
                  | .error m => (.error (.validationErr m), c)
                  | .ok meta => (.ok meta, cache_set s c prompt meta env.now)

/-- One attempt of `StabilityProvider.generate_image`
(`stability.py:120-190`): cache lookup, the request body, and the two
`except` clauses — both of which return the placeholder, so no attempt
ever raises. -/
def stabilityAttempt (s : Settings) (slide : SlidePlan) (style : Option String)
    (env : StabilityEnv) (cache : Cache) : Except ImgExc ImageMeta × Cache :=
  match cache_get s cache (build_prompt slide style) env.now with
  | (some m, c) => (.ok m, c)
  | (none, c) =>
    stabilityExceptClauses (placeholderMeta s slide.title)
      (stabilityAttemptBody s slide env (build_prompt slide style) c)

/-- `StabilityProvider.generate_image` under its
`@retry(stop=stop_after_attempt(3), ...)` (which retries every
exception). -/
def StabilityProvider.generate_image (s : Settings) (slide : SlidePlan)
    (style : Option String) (envs : Nat → StabilityEnv) (cache : Cache) :
    RunResult ImgExc ImageMeta × Cache × Nat :=
  tenacityRun (fun _ => true)
    (fun idx c => stabilityAttempt s slide style (envs idx) c) 3 0 cache

/-- `DalleProvider._build_prompt` (`dalle.py:40-54`). -/
def dalleBuildPrompt (slide : SlidePlan) (style : Option String) : String :=
  let bullets := joinSemicolon slide.bullets
  let base := "Create a professional, business-appropriate image for a PowerPoint slide titled '"
    ++ slide.title ++ "' with the following content: " ++ bullets
  let base :=
    match style with
    | some st => if st = "" then base else base ++ " Style: " ++ st ++ "."
    | none => base
  let base := base ++ " The image should be clean, modern, and suitable for a business presentation. Avoid text or words in the image."
  pyNormalize base

/-- The outcomes of the effectful steps of one attempt of
`DalleProvider.generate_image` (`dalle.py:119-189`): the POST, the
decoded response body (`b64json` is the `"b64_json"` entry of
`data["data"][0]` when `data.get("data")` is truthy, i.e. `dataEntries`
is the decoded non-empty `"data"` list), and `_save_image`. -/
structure DalleEnv where
  post : Except String HttpResp
  respDecode : Except String Unit
  dataEntries : List (Option String)
  save : Except String String
  now : Nat
deriving Inhabited

/-- The placeholder expression of `dalle.py`
(`ImageMeta(url=settings.DALLE_PLACEHOLDER_URL, alt_text=..., ...)`): the
settings access raises `AttributeError`, so the expression never produces
an `ImageMeta`. -/
def dallePlaceholderExpr (alt : String) : Except ImgExc ImageMeta :=
  match settingsDallePlaceholderUrl with
  | .ok url => .ok { url := url, altText := alt, provider := "placeholder" }
  | .error msg => .error (.attributeErr msg)

/-- The `try` body of one attempt of `DalleProvider.generate_image`
(`dalle.py:128-182`).  Every branch that returns the placeholder
evaluates `dallePlaceholderExpr`, i.e. raises `AttributeError` inside the
`try` (to be re-raised by the handlers, which evaluate the same
expression). -/
def dalleAttemptBody (s : Settings) (slide : SlidePlan) (env : DalleEnv)
    (prompt : String) (c : Cache) : Except ImgExc ImageMeta × Cache :=
      match env.post with
      | .error m => (.error (.netErr m), c)
      | .ok resp =>
        if resp.status = 429 then
          match dallePlaceholderExpr slide.title with
          | .ok m => (.ok m, c)
          | .error e => (.error e, c)
        else if resp.status = 400 then
          match dallePlaceholderExpr slide.title with
          | .ok m => (.ok m, c)
          | .error e => (.error e, c)
        else if 400 ≤ resp.status then (.error (.httpStatus resp.status), c)
        else
          match env.respDecode with
          | .error m => (.error (.validationErr m), c)
          | .ok _ =>
            match env.dataEntries with
            | [] =>
              match dallePlaceholderExpr slide.title with
              | .ok m => (.ok m, c)
              | .error e => (.error e, c)
            | entry :: _ =>
              match entry with
              | none =>
                match dallePlaceholderExpr slide.title with
                | .ok m => (.ok m, c)
                | .error e => (.error e, c)
              | some b64 =>
                let _ := b64
                match env.save with
                | .error m => (.error (.osErr m), c)
                | .ok filename =>
                  let publicUrl := s.publicBaseUrl ++ s.staticUrlPath ++ "/"
                    ++ s.staticImagesSubdir ++ "/" ++ filename
                  match mkImageMeta publicUrl slide.title ("dalle") with
                  | .error m => (.error (.validationErr m), c)
                  | .ok meta => (.ok meta, cache_set s c prompt meta env.now)

/-- One attempt of `DalleProvider.generate_image` (`dalle.py:119-189`):
cache lookup, the request body, and the two `except` clauses — both of
which return the placeholder. -/
def dalleAttempt (s : Settings) (slide : SlidePlan) (style : Option String)
    (env : DalleEnv) (cache : Cache) : Except ImgExc ImageMeta × Cache :=
  match cache_get s cache (dalleBuildPrompt slide style) env.now with
  | (some m, c) => (.ok m, c)
  | (none, c) =>
    dalleExceptClauses
      (dalleAttemptBody s slide env (dalleBuildPrompt slide style) c)

/-- `DalleProvider.generate_image` under its retry decorator. -/
def DalleProvider.generate_image (s : Settings) (slide : SlidePlan)
    (style : Option String) (envs : Nat → DalleEnv) (cache : Cache) :
    RunResult ImgExc ImageMeta × Cache × Nat :=
  tenacityRun (fun _ => true)
    (fun idx c => dalleAttempt s slide style (envs idx) c) 3 0 cache

/-! ## The provider factory (`image_providers/__init__.py:26-56`) -/

/-- The observable state of a provider instance: its name, availability
(a pure function of the configured credential), and its per-instance
response cache (`self._cache = {}` in both constructors). -/
structure ProviderInst where
  name : String
  available : Bool
  cache : Cache
deriving Repr, Inhabited

/-- `StabilityProvider.__init__` (`stability.py:22-27`): reads
`STABILITY_BASE_URL` (declared), then `settings.STABILITY_ENGINE_ID`
(`stability.py:24`) — undeclared, so the constructor raises
`AttributeError` before `self._cache` is ever initialized; had it
succeeded, the instance would have started with an empty cache. -/
def StabilityProvider.init (s : Settings) : Except String ProviderInst :=
  (settingsStabilityEngineId).map
    (fun _ => { name := "stability-ai",
                available := !(optStrFalsy s.stabilityApiKey), cache := [] })

/-- `DalleProvider.__init__` (`dalle.py:21-26`): its first statement reads
`settings.OPENAI_BASE_URL` (`dalle.py:22`) — undeclared, so the
constructor raises `AttributeError` (the instance state in the function
below is dead code: the access raises before any field is set). -/
def DalleProvider.init (_s : Settings) : Except String ProviderInst :=
  (settingsOpenaiBaseUrl).map
    (fun _ => { name := "dalle", available := false, cache := [] })

/-- `ImageProviderFactory._providers`: the registration table, name →
class (a class is its constructor, which may raise). -/
abbrev ProviderTable := List (String × (Settings → Except String ProviderInst))

/-- The table produced by `register_providers` (`registry.py:12-22`). -/
def registeredProviders : ProviderTable :=
  [("stability-ai", StabilityProvider.init), ("dalle", DalleProvider.init)]

/-- `ImageProviderFactory.get_provider` (`__init__.py:36-41`): `None` for
an unregistered name, otherwise `cls._providers[name]()` — a fresh
constructor call, whose exception propagates to the caller. -/
def get_provider (table : ProviderTable) (s : Settings) (name : String) :
    Except String (Option ProviderInst) :=
  match List.find? (fun e => e.1 = name) table with
  | none => .ok none
  | some e => (e.2 s).map some

/-- `ImageProviderFactory.get_available_providers` (`__init__.py:43-51`):
instantiate every registered class in order and keep the available ones;
the first constructor exception propagates. -/
def get_available_providers (table : ProviderTable) (s : Settings) :
    Except String (List (String × ProviderInst)) :=
  (table.mapM
      (fun e : String × (Settings → Except String ProviderInst) =>
        (e.2 s).map (fun p => (e.1, p)))).map
    (fun l => l.filter (fun np => np.2.available))

/-! ## `build_pptx` (`app/services/pptx.py:97-140`) -/

/-- The outcomes of the effectful steps of composing one slide inside the
per-slide `try` of `build_pptx` (`pptx.py:110-125`): layout/title/bullet
insertion, the image download (and the branded-placeholder download used
when it fails), image insertion, and notes insertion. -/
structure SlideComposeEnv where
  addSlide : Except String Unit
  imageDownload : Option (List Nat)
  placeholderDownload : Option (List Nat)
  addImage : Except String Unit
  notesSet : Except String Unit
deriving Inhabited

/-- Composing one slide (`pptx.py:110-125`): title and bullets, then the
image block when the plan has one (download falling back to the branded
placeholder; skipped entirely when both downloads fail), then notes when
truthy. -/
def composeSlide (slide : SlidePlan) (env : SlideComposeEnv) : Except String Unit := do
  env.addSlide
  if slide.image.isSome then
    let bytes :=
      match env.imageDownload with
      | some b => some b
      | none => env.placeholderDownload
    match bytes with
    | some _ => env.addImage
    | none => pure ()
  match slide.notes with
  | some nt => if nt = "" then pure () else env.notesSet
  | none => pure ()

/-- The slide loop of `build_pptx` (`pptx.py:109-134`): each slide's
composition runs in a `try` whose failure is swallowed, and the `finally`
invokes `on_progress(idx, total)` (its own exceptions also swallowed).
Returns each slide's composition outcome and the trace of `on_progress`
invocations. -/
def buildLoop (total : Nat) : List (SlidePlan × SlideComposeEnv) → Nat →
    List (Except String Unit) × List (Nat × Nat)
  | [], _ => ([], [])
  | (slide, env) :: rest, idx =>
    let outcome := composeSlide slide env
    let r := buildLoop total rest (idx + 1)
    (outcome :: r.1, (idx, total) :: r.2)

/-- `build_pptx` (`pptx.py:97-140`) after a successful template load: the
progress-invocation trace and per-slide outcomes (`enumerate(slides,
start=1)`). -/
def build_pptx (slides : List SlidePlan) (envs : List SlideComposeEnv) :
    List (Except String Unit) × List (Nat × Nat) :=
  buildLoop slides.length (slides.zip envs) 1

/-! ## Concrete fixtures used to evaluate the theorems -/

def exSettingsKeys : Settings :=
  { openrouterApiKey := some ("k"), stabilityApiKey := some ("sk") }

def exSettingsNoKey : Settings := {}

def exSettingsRequire : Settings :=
  { exSettingsKeys with openrouterRequireUpstream := true }

def exSlide : SlidePlan := { title := "T", bullets := ["A"] }

def exSlide2 : SlidePlan := { title := "U", bullets := ["B"] }

def exReq : ChatRequest := { prompt := "AI", slideCount := 3, language := "en" }

def exReqBadModel : ChatRequest := { exReq with model := some ("evil") }

/-- An outline-attempt environment in which both upstream endpoints
return HTTP 500. -/
def exLlmEnv500 : LlmAttemptEnv :=
  { chatPost := .ok { status := 500 }, chatContent := .ok (""),
    genPost := .ok { status := 500 }, genData := .ok (Json.obj []) }

/-- A legacy image-service environment: the legacy endpoint answers 429. -/
def exImgEnv429 : LegacyImgEnv :=
  { payloadBuild := .ok (), post1 := .ok { status := 429 },
    v2post := .ok { status := 200 }, v2contentIsImage := false,
    v2save := .ok ("f.png"), v2jsonUrl := none,
    legacyUrl := .ok ("http://img"), now := 0 }

/-- A legacy image-service environment: the legacy endpoint answers 200
but parsing the body (`StabilityGenerationResponse(**resp.json())`)
raises. -/
def exImgEnvParseFail : LegacyImgEnv :=
  { exImgEnv429 with post1 := .ok { status := 200 }, legacyUrl := .error ("ValidationError") }

def exStabEnv429 : StabilityEnv :=
  { post := .ok { status := 429 }, respParse := .error ("unused"),
    save := .ok ("f.png"), now := 0 }

def exDalleEnv429 : DalleEnv :=
  { post := .ok { status := 429 }, respDecode := .ok (), dataEntries := [],
    save := .ok ("f.png"), now := 0 }

def exTask429 : ImgTaskEnv := { attempts := fun _ => exImgEnv429, cache := [] }

def exMeta1 : ImageMeta := { url := "http://a", altText := "a", provider := "p" }

def exMeta2 : ImageMeta := { url := "http://b", altText := "b", provider := "p" }

def exMeta3 : ImageMeta := { url := "http://c", altText := "c", provider := "p" }

def exCacheSettings : Settings := { imageCacheMaxEntries := 2, imageCacheTtlSeconds := 10 }

def exCache : Cache := [("a", 5, exMeta1), ("b", 3, exMeta2)]

def exComposeFail : SlideComposeEnv :=
  { addSlide := .error ("boom"), imageDownload := none, placeholderDownload := none,
    addImage := .ok (), notesSet := .ok () }

def exC6Text : String := "x \x7b\"a\": 1\x7d"

/-! # Supporting lemmas -/

theorem gatherFill_length (res : List ImageMeta) :
    ∀ (order : List Nat) (slots : List (Option ImageMeta)),
      (gatherFill res order slots).length = slots.length := by
  intro order
  induction order with
  | nil => intro slots; rfl
  | cons o rest ih =>
    intro slots
    unfold gatherFill
    cases h : res[o]? with
    | none => simpa [h] using ih _
    | some v => simp [h, ih, List.length_set]

theorem gatherFill_getElem_not_mem (res : List ImageMeta) (order : List Nat)
    (j : Nat) (hj : j ∉ order) :
    ∀ slots : List (Option ImageMeta), (gatherFill res order slots)[j]? = slots[j]? := by
  induction order with
  | nil => intro slots; rfl
  | cons o rest ih =>
    intro slots
    have hjo : o ≠ j := fun h => hj (h ▸ List.mem_cons_self o rest)
    have hjr : j ∉ rest := fun h => hj (List.mem_cons_of_mem _ h)
    unfold gatherFill
    cases h : res[o]? with
    | none => simpa [h] using ih hjr _
    | some v =>
      simp only [h]
      rw [ih hjr, List.getElem?_set_ne hjo]

theorem gatherFill_getElem_mem (res : List ImageMeta) (order : List Nat)
    (hnd : order.Nodup) (j : Nat) (hj : j ∈ order) (hlt : j < res.length) :
    ∀ slots : List (Option ImageMeta), slots.length = res.length →
      (gatherFill res order slots)[j]? = some (some (res.get ⟨j, hlt⟩)) := by
  induction order with
  | nil => cases hj
  | cons o rest ih =>
    intro slots hs
    rcases List.mem_cons.mp hj with rfl | hjr
    · have hnr : j ∉ rest := (List.nodup_cons.mp hnd).1
      unfold gatherFill
      rw [List.getElem?_eq_getElem hlt]
      rw [gatherFill_getElem_not_mem res rest j hnr]
      rw [List.getElem?_set_self (hs ▸ hlt)]
      simp [List.get_eq_getElem]
    · have hnd' := (List.nodup_cons.mp hnd).2
      unfold gatherFill
      cases h : res[o]? with
      | none => simpa [h] using ih hnd' hjr _ hs
      | some v =>
        simp only [h]
        exact ih hnd' hjr _ (by rw [List.length_set, hs])

theorem asyncGather_perm (res : List ImageMeta) (order : List Nat)
    (hperm : order.Perm (List.range res.length)) : asyncGather res order = res := by
  have hnd : order.Nodup := hperm.symm.nodup (List.nodup_range _)
  apply List.ext_getElem?
  intro n
  by_cases hn : n < res.length
  · have hmem : n ∈ order := hperm.mem_iff.mpr (List.mem_range.mpr hn)
    have h1 := gatherFill_getElem_mem res order hnd n hmem hn
      (List.replicate res.length none) (List.length_replicate _ _)
    unfold asyncGather
    rw [List.getElem?_map, h1, List.getElem?_eq_getElem hn]
    simp [List.get_eq_getElem]
  · have hlen : res.length ≤ n := Nat.le_of_not_lt hn
    unfold asyncGather
    rw [List.getElem?_eq_none (by simpa [gatherFill_length] using hlen),
      List.getElem?_eq_none hlen]

theorem offline_outline_length (n : Nat) : (offline_outline n).slides.length = n := by
  simp [offline_outline]

theorem offline_outline_get (n i : Nat) (h : i < (offline_outline n).slides.length) :
    (offline_outline n).slides.get ⟨i, h⟩ =
      { title := "Slide " ++ toString (i + 1), bullets := ["Bullet"] } := by
  simp [offline_outline, List.get_eq_getElem, List.getElem_map, List.getElem_range]

theorem oldestEntry_isSome {c : Cache} (h : c ≠ []) : (oldestEntry c).isSome := by
  cases c with
  | nil => exact absurd rfl h
  | cons x rest =>
    unfold oldestEntry
    cases oldestEntry rest with
    | none => rfl
    | some m => by_cases hm : m.2.1 < x.2.1 <;> simp [hm]

theorem oldestEntry_mem : ∀ {c : Cache} {e}, oldestEntry c = some e → e ∈ c := by
  intro c
  induction c with
  | nil => intro e h; cases h
  | cons x rest ih =>
    intro e h
    unfold oldestEntry at h
    split at h
    · cases h
      exact List.mem_cons_self _ _
    · next m hr =>
      split at h
      · cases h
        exact List.mem_cons_of_mem _ (ih hr)
      · cases h
        exact List.mem_cons_self _ _

theorem oldestEntry_min : ∀ {c : Cache} {e}, oldestEntry c = some e →
    ∀ e' ∈ c, e.2.1 ≤ e'.2.1 := by
  intro c
  induction c with
  | nil => intro e h; cases h
  | cons x rest ih =>
    intro e h e' he'
    unfold oldestEntry at h
    split at h
    · next hr =>
      cases h
      have hrest : rest = [] := by
        by_contra hne
        have := oldestEntry_isSome hne
        rw [hr] at this
        simp at this
      subst hrest
      rcases List.mem_cons.mp he' with rfl | h2
      · exact Nat.le_refl _
      · cases h2
    · next m hr =>
      split at h
      · next hm =>
        cases h
        rcases List.mem_cons.mp he' with rfl | h2
        · exact Nat.le_of_lt hm
        · exact ih hr _ h2
      · next hm =>
        cases h
        rcases List.mem_cons.mp he' with rfl | h2
        · exact Nat.le_refl _
        · exact Nat.le_trans (Nat.le_of_not_lt hm) (ih hr _ h2)

theorem dictGet_dictPop (c : Cache) (k : String) : dictGet (dictPop c k) k = none := by
  unfold dictGet dictPop
  rw [Option.map_eq_none']
  rw [List.find?_eq_none]
  intro x hx
  have := (List.mem_filter.mp hx).2
  simpa using this

theorem dictPop_length (c : Cache) (k : String) (hk : k ∈ c.map Prod.fst)
    (hnd : (c.map Prod.fst).Nodup) : (dictPop c k).length + 1 = c.length := by
  induction c with
  | nil => cases hk
  | cons x rest ih =>
    rw [List.map_cons] at hnd hk
    have hnd' : (rest.map Prod.fst).Nodup := (List.nodup_cons.mp hnd).2
    have hx1 : x.1 ∉ rest.map Prod.fst := (List.nodup_cons.mp hnd).1
    rcases List.mem_cons.mp hk with rfl | hkr
    · have hpop : dictPop (x :: rest) x.1 = rest := by
        simp only [dictPop, List.filter_cons]
        have hstep : ∀ a ∈ rest, (decide ¬(a.1 = x.1)) = true := by
          intro a ha
          have : a.1 ≠ x.1 := fun hax => hx1 (hax ▸ List.mem_map_of_mem Prod.fst ha)
          simpa using this
        rw [if_neg (by simp)]
        exact List.filter_eq_self.mpr hstep
      rw [hpop]
      simp
    · have hxk : x.1 ≠ k := by
        intro hxx
        exact hx1 (hxx ▸ hkr)
      have : dictPop (x :: rest) k = x :: dictPop rest k := by
        unfold dictPop
        simp only [List.filter_cons]
        rw [if_pos (by simpa using hxk)]
      rw [this]
      simp only [List.length_cons]
      rw [ih hkr hnd']

theorem dictSet_length_le (c : Cache) (k : String) (v : Nat × ImageMeta) :
    (dictSet c k v).length ≤ c.length + 1 := by
  unfold dictSet
  by_cases h : List.any c (fun e => e.1 = k)
  · simp [h, List.length_map, Nat.le_succ]
  · simp [h]

/-- A tenacity loop whose every attempt fails with the same retryable
exception exhausts its three attempts and raises `RetryError`. -/
theorem tenacityRun_const_error {σ ε α : Type} [Inhabited ε] (e : ε)
    (f : Nat → σ → Except ε α × σ) (hf : ∀ idx st, f idx st = (.error e, st))
    (sr : ε → Bool) (hsr : sr e = true) (st : σ) :
    tenacityRun sr f 3 0 st = (.retriesExhausted e, st, 3) := by
  simp [tenacityRun, hf, hsr]

/-! # Claims -/

/-- C4: for every valid outline request with `slideCount = N`, when no
API credential is configured, `generate_outline` returns exactly `N`
slides, slide `i` (1-based) titled `"Slide i"` with bullets `["Bullet"]`,
and makes no upstream call. -/
theorem generate_outline_offline_fallback (s : Settings) (req : ChatRequest)
    (envs : Nat → LlmAttemptEnv)
    (hkey : optStrFalsy s.openrouterApiKey = true)
    (hcount : 1 ≤ req.slideCount ∧ req.slideCount ≤ 20) :
    (generate_outline s req envs).2 = 0 ∧
    ∃ resp, (generate_outline s req envs).1 = .ok resp ∧
      resp.slides.length = req.slideCount ∧
      ∀ i (h : i < resp.slides.length),
        (resp.slides.get ⟨i, h⟩).title = "Slide " ++ toString (i + 1) ∧
        (resp.slides.get ⟨i, h⟩).bullets = ["Bullet"] := by
  have hgen : generate_outline s req envs = (.ok (offline_outline req.slideCount), 0) := by
    unfold generate_outline
    rw [if_pos hkey]
  refine ⟨by rw [hgen], offline_outline req.slideCount, by rw [hgen], offline_outline_length _, ?_⟩
  intro i h
  constructor
  · rw [offline_outline_get]
  · rw [offline_outline_get]

/-- Witness for C4 at a concrete input: no credentials, `slideCount = 3`. -/
theorem generate_outline_offline_fallback_witness :
    (optStrFalsy exSettingsNoKey.openrouterApiKey = true ∧
      (1 ≤ exReq.slideCount ∧ exReq.slideCount ≤ 20)) ∧
    ((generate_outline exSettingsNoKey exReq (fun _ => exLlmEnv500)).2 = 0 ∧
      ∃ resp, (generate_outline exSettingsNoKey exReq (fun _ => exLlmEnv500)).1 = .ok resp ∧
        resp.slides.length = exReq.slideCount ∧
        ∀ i (h : i < resp.slides.length),
          (resp.slides.get ⟨i, h⟩).title = "Slide " ++ toString (i + 1) ∧
          (resp.slides.get ⟨i, h⟩).bullets = ["Bullet"]) :=
  ⟨⟨rfl, by decide⟩,
    generate_outline_offline_fallback exSettingsNoKey exReq (fun _ => exLlmEnv500) rfl (by decide)⟩

/-- C5: with credentials configured and every upstream attempt failing
(`LLMError`, or tenacity's `RetryError` after exhaustion),
`generate_outline` is decided by `OPENROUTER_REQUIRE_UPSTREAM`: when
false it returns the deterministic offline fallback outline; when true it
re-raises the classified error and produces no fallback outline. -/
theorem generate_outline_require_upstream_dichotomy (s : Settings) (req : ChatRequest)
    (envs : Nat → LlmAttemptEnv)
    (hkey : optStrFalsy s.openrouterApiKey = false)
    (hfail : caughtByGenerateOutline (_call_openrouter s req envs).1 = true) :
    (s.openrouterRequireUpstream = false →
      ∃ resp, (generate_outline s req envs).1 = .ok resp ∧
        resp.slides.length = req.slideCount ∧
        ∀ i (h : i < resp.slides.length),
          (resp.slides.get ⟨i, h⟩).title = "Slide " ++ toString (i + 1) ∧
          (resp.slides.get ⟨i, h⟩).bullets = ["Bullet"]) ∧
    (s.openrouterRequireUpstream = true →
      (generate_outline s req envs).1 = (_call_openrouter s req envs).1 ∧
      ∀ resp, (generate_outline s req envs).1 ≠ .ok resp) := by
  rcases hc : _call_openrouter s req envs with ⟨res, calls, att⟩
  rw [hc] at hfail
  have hgen : generate_outline s req envs =
      (if s.openrouterRequireUpstream then (res, calls)
       else (.ok (offline_outline req.slideCount), calls)) := by
    unfold generate_outline
    rw [if_neg (by simp [hkey]), hc]
    cases res with
    | ok r => simp [caughtByGenerateOutline] at hfail
    | raised e => simp [hfail]
    | retriesExhausted e => simp [hfail]
  constructor
  · intro hreq
    rw [hgen, if_neg (by simp [hreq])]
    exact ⟨offline_outline req.slideCount, rfl, offline_outline_length _,
      fun i h => ⟨by rw [offline_outline_get], by rw [offline_outline_get]⟩⟩
  · intro hreq
    rw [hgen, if_pos hreq]
    refine ⟨rfl, ?_⟩
    intro resp
    cases res with
    | ok r => simp [caughtByGenerateOutline] at hfail
    | raised e => simp
    | retriesExhausted e => simp

/-- Witness for C5 at a concrete input: both endpoints return 500 on
every attempt; instantiated once with the flag off and once with it
on. -/
theorem generate_outline_require_upstream_dichotomy_witness :
    (optStrFalsy exSettingsKeys.openrouterApiKey = false ∧
      caughtByGenerateOutline (_call_openrouter exSettingsKeys exReq (fun _ => exLlmEnv500)).1 = true ∧
      caughtByGenerateOutline (_call_openrouter exSettingsRequire exReq (fun _ => exLlmEnv500)).1 = true) ∧
    (∃ resp, (generate_outline exSettingsKeys exReq (fun _ => exLlmEnv500)).1 = .ok resp ∧
      resp.slides.length = exReq.slideCount ∧
      ∀ i (h : i < resp.slides.length),
        (resp.slides.get ⟨i, h⟩).title = "Slide " ++ toString (i + 1) ∧
        (resp.slides.get ⟨i, h⟩).bullets = ["Bullet"]) ∧
    ((generate_outline exSettingsRequire exReq (fun _ => exLlmEnv500)).1 =
        (_call_openrouter exSettingsRequire exReq (fun _ => exLlmEnv500)).1 ∧
      ∀ resp, (generate_outline exSettingsRequire exReq (fun _ => exLlmEnv500)).1 ≠ .ok resp) :=
  ⟨⟨rfl, rfl, rfl⟩,
    (generate_outline_require_upstream_dichotomy exSettingsKeys exReq (fun _ => exLlmEnv500)
      rfl rfl).1 rfl,
    (generate_outline_require_upstream_dichotomy exSettingsRequire exReq (fun _ => exLlmEnv500)
      rfl rfl).2 rfl⟩

/-- C7: a request whose requested model is outside the non-empty
allow-list fails inside model selection — the classified error's root
cause is the disallowed-model `LLMError` — and no upstream HTTP request
is issued on any attempt. -/
theorem call_openrouter_disallowed_model_no_network (s : Settings) (req : ChatRequest)
    (envs : Nat → LlmAttemptEnv) (m : String)
    (hm : req.model = some m) (hne : m ≠ "")
    (hnonempty : s.openrouterAllowedModels ≠ [])
    (hnotin : m ∉ s.openrouterAllowedModels) :
    (_call_openrouter s req envs).2.1 = 0 ∧
    ∃ e, (_call_openrouter s req envs).1 = .retriesExhausted e ∧
      e.rootCause = .disallowedModel m := by
  have hsel : _select_model s req.model = .error (.disallowedModel m) := by
    rw [hm]
    unfold _select_model
    simp only [if_neg hne]
    rw [if_pos ⟨hnonempty, hnotin⟩]
  have hatt : ∀ idx, chatAttempt s req (envs idx) =
      (.error (.wrapFailed (.disallowedModel m)), 0) := by
    intro idx
    unfold chatAttempt
    rw [hsel]
    rfl
  have hrun : _call_openrouter s req envs =
      (.retriesExhausted (.wrapFailed (.disallowedModel m)), 0, 3) := by
    unfold _call_openrouter
    exact tenacityRun_const_error _ _ (fun idx st => by rw [hatt idx]; simp) _ rfl 0
  rw [hrun]
  exact ⟨rfl, _, rfl, rfl⟩

/-- C6 counterexample: on the text `"42"` none of the three strategies
yields a JSON *object* (the direct parse yields the JSON number 42), yet
the extractor reports success rather than failure — refuting "reporting
failure if and only if none of the three yields a JSON object" and
"returning the first strategy's result that yields a JSON object". -/
theorem extract_first_json_object_nonobject_success :
    _extract_first_json_object ("42") = (true, some (Json.num 42)) ∧
    Json.isObj (Json.num 42) = false ∧
    strategyFenced ("42") = none ∧ strategyScan ("42") = none :=
  ⟨rfl, rfl, rfl, rfl⟩

/-- C6 (amended): the extractor applies the three strategies in order and
returns the first strategy's result that yields a JSON *value* (not
necessarily an object); it reports failure iff none of the three yields a
JSON value.  (The object-ness requirement is enforced by the caller,
`_call_openrouter`, which classifies a successful non-object extraction
as a malformed response.) -/
theorem extract_first_json_object_strategy_order (t : String) :
    ((_extract_first_json_object t).1 = false ↔
      strategyDirect t = none ∧ strategyFenced t = none ∧ strategyScan t = none) ∧
    (∀ j, strategyDirect t = some j → _extract_first_json_object t = (true, some j)) ∧
    (strategyDirect t = none → ∀ j, strategyFenced t = some j →
      _extract_first_json_object t = (true, some j)) ∧
    (strategyDirect t = none → strategyFenced t = none → ∀ j, strategyScan t = some j →
      _extract_first_json_object t = (true, some j)) ∧
    ((_extract_first_json_object t).1 = false → (_extract_first_json_object t).2 = none) := by
  unfold _extract_first_json_object strategyDirect strategyFenced strategyScan
  cases hd : json_loads t with
  | some j => simp [hd]
  | none =>
    cases hf : fencedContent t with
    | some inner =>
      cases hfi : json_loads inner with
      | some j => simp [hd, hf, hfi, Option.bind]
      | none =>
        cases hs : braceScan t.toList with
        | some j => simp [hd, hf, hfi, hs, Option.bind]
        | none => simp [hd, hf, hfi, hs, Option.bind]
    | none =>
      cases hs : braceScan t.toList with
      | some j => simp [hd, hf, hs, Option.bind]
      | none => simp [hd, hf, hs, Option.bind]

/-- Witness for C6 at a concrete input: prose followed by a brace-balanced
object, resolved by the third strategy. -/
theorem extract_first_json_object_strategy_order_witness :
    (strategyDirect exC6Text = none ∧ strategyFenced exC6Text = none ∧
      strategyScan exC6Text = some (Json.obj [("a", Json.num 1)])) ∧
    _extract_first_json_object exC6Text = (true, some (Json.obj [("a", Json.num 1)])) :=
  ⟨⟨rfl, rfl, rfl⟩,
    (extract_first_json_object_strategy_order exC6Text).2.2.2.1 rfl rfl _ rfl⟩

/-- Witness for C7 at a concrete input: requested model `"evil"` against
the default allow-list. -/
theorem call_openrouter_disallowed_model_no_network_witness :
    (exReqBadModel.model = some ("evil") ∧ "evil" ≠ "" ∧
      exSettingsKeys.openrouterAllowedModels ≠ [] ∧
      "evil" ∉ exSettingsKeys.openrouterAllowedModels) ∧
    ((_call_openrouter exSettingsKeys exReqBadModel (fun _ => exLlmEnv500)).2.1 = 0 ∧
      ∃ e, (_call_openrouter exSettingsKeys exReqBadModel (fun _ => exLlmEnv500)).1 =
          .retriesExhausted e ∧
        e.rootCause = .disallowedModel ("evil")) :=
  ⟨⟨rfl, by decide, by decide, by decide⟩,
    call_openrouter_disallowed_model_no_network exSettingsKeys exReqBadModel
      (fun _ => exLlmEnv500) ("evil") rfl (by decide) (by decide) (by decide)⟩

/-- C8: the adapter response cache preserves its bound under every
operation: inserting at capacity first evicts exactly one entry — one of
minimal insertion timestamp — so the entry count never exceeds the
configured maximum; and a lookup of an entry older than the TTL returns
absent and removes that entry.  (`hnd` is the dict invariant: keys are
unique.) -/
theorem cache_bound_eviction_ttl (s : Settings) (c : Cache) (k : String)
    (v : ImageMeta) (now : Nat)
    (hmax : 0 < s.imageCacheMaxEntries)
    (hnd : (c.map Prod.fst).Nodup) :
    (c.length ≤ s.imageCacheMaxEntries →
      (cache_set s c k v now).length ≤ s.imageCacheMaxEntries) ∧
    (c.length = s.imageCacheMaxEntries →
      ∃ e, e ∈ c ∧ (∀ e' ∈ c, e.2.1 ≤ e'.2.1) ∧
        cache_set s c k v now = dictSet (dictPop c e.1) k (now, v) ∧
        (dictPop c e.1).length + 1 = c.length) ∧
    (∀ ts val, dictGet c k = some (ts, val) → s.imageCacheTtlSeconds < now - ts →
      cache_get s c k now = (none, dictPop c k) ∧ dictGet (dictPop c k) k = none) := by
  have hcap : c.length = s.imageCacheMaxEntries →
      ∃ e, e ∈ c ∧ (∀ e' ∈ c, e.2.1 ≤ e'.2.1) ∧
        cache_set s c k v now = dictSet (dictPop c e.1) k (now, v) ∧
        (dictPop c e.1).length + 1 = c.length := by
    intro hlen
    have hne : c ≠ [] := by
      intro h0
      rw [h0] at hlen
      simp at hlen
      omega
    obtain ⟨e, he⟩ := Option.isSome_iff_exists.mp (oldestEntry_isSome hne)
    refine ⟨e, oldestEntry_mem he, oldestEntry_min he, ?_, ?_⟩
    · unfold cache_set
      rw [if_pos (by omega), he]
    · exact dictPop_length c e.1 (List.mem_map_of_mem Prod.fst (oldestEntry_mem he)) hnd
  refine ⟨?_, hcap, ?_⟩
  · intro hle
    rcases Nat.lt_or_ge c.length s.imageCacheMaxEntries with hlt | hge
    · have hset : cache_set s c k v now = dictSet c k (now, v) := by
        unfold cache_set
        rw [if_neg (by omega)]
      rw [hset]
      calc (dictSet c k (now, v)).length ≤ c.length + 1 := dictSet_length_le _ _ _
        _ ≤ s.imageCacheMaxEntries := by omega
    · have hlen : c.length = s.imageCacheMaxEntries := Nat.le_antisymm hle hge
      obtain ⟨e, _, _, heq, hpoplen⟩ := hcap hlen
      rw [heq]
      calc (dictSet (dictPop c e.1) k (now, v)).length
          ≤ (dictPop c e.1).length + 1 := dictSet_length_le _ _ _
        _ = c.length := hpoplen
        _ ≤ _ := hle
  · intro ts val hget httl
    refine ⟨?_, dictGet_dictPop c k⟩
    unfold cache_get
    rw [hget]
    simp only
    rw [if_pos httl]

/-- Witness for C8 at a concrete input: capacity 2, TTL 10, a full cache,
an insert, and an expired lookup of key `"a"` at time 16. -/
theorem cache_bound_eviction_ttl_witness :
    (0 < exCacheSettings.imageCacheMaxEntries ∧ (exCache.map Prod.fst).Nodup) ∧
    ((exCache.length ≤ exCacheSettings.imageCacheMaxEntries →
      (cache_set exCacheSettings exCache ("a") exMeta3 16).length ≤
        exCacheSettings.imageCacheMaxEntries) ∧
    (exCache.length = exCacheSettings.imageCacheMaxEntries →
      ∃ e, e ∈ exCache ∧ (∀ e' ∈ exCache, e.2.1 ≤ e'.2.1) ∧
        cache_set exCacheSettings exCache ("a") exMeta3 16 =
          dictSet (dictPop exCache e.1) ("a") (16, exMeta3) ∧
        (dictPop exCache e.1).length + 1 = exCache.length) ∧
    (∀ ts val, dictGet exCache ("a") = some (ts, val) →
      exCacheSettings.imageCacheTtlSeconds < 16 - ts →
      cache_get exCacheSettings exCache ("a") 16 = (none, dictPop exCache ("a")) ∧
      dictGet (dictPop exCache ("a")) ("a") = none)) :=
  ⟨⟨by decide, by decide⟩,
    cache_bound_eviction_ttl exCacheSettings exCache ("a") exMeta3 16 (by decide) (by decide)⟩

/-- The `on_progress` trace of the slide loop: one invocation per slide
with payload `(index, total)`, for any composition outcomes. -/
theorem buildLoop_trace (total : Nat) :
    ∀ (ps : List (SlidePlan × SlideComposeEnv)) (idx : Nat),
      (buildLoop total ps idx).2 = (List.range' idx ps.length).map (fun j => (j, total)) := by
  intro ps
  induction ps with
  | nil => intro idx; rfl
  | cons p rest ih =>
    intro idx
    rw [List.length_cons, List.range'_succ, List.map_cons]
    show (idx, total) :: (buildLoop total rest (idx + 1)).2 = _
    rw [ih (idx + 1)]

/-- C9: `build_pptx` invokes `on_progress` exactly once per slide, with
`(completedCount, total)`, after processing that slide — whatever the
per-slide composition outcomes (`envs`) are, i.e. regardless of each
slide's success or failure. -/
theorem build_pptx_progress_every_slide (slides : List SlidePlan)
    (envs : List SlideComposeEnv) (hlen : envs.length = slides.length) :
    (build_pptx slides envs).2 =
      (List.range' 1 slides.length).map (fun j => (j, slides.length)) := by
  unfold build_pptx
  rw [buildLoop_trace]
  have : (slides.zip envs).length = slides.length := by
    rw [List.length_zip, hlen]
    exact Nat.min_self _
  rw [this]

/-- Witness for C9 at a concrete input: three slides whose composition
fails on every slide; the progress trace is still `(1,3), (2,3), (3,3)`. -/
theorem build_pptx_progress_every_slide_witness :
    ([exComposeFail, exComposeFail, exComposeFail].length =
      [exSlide, exSlide2, exSlide].length) ∧
    (build_pptx [exSlide, exSlide2, exSlide] [exComposeFail, exComposeFail, exComposeFail]).2 =
      (List.range' 1 [exSlide, exSlide2, exSlide].length).map
        (fun j => (j, [exSlide, exSlide2, exSlide].length)) :=
  ⟨rfl, build_pptx_progress_every_slide [exSlide, exSlide2, exSlide]
    [exComposeFail, exComposeFail, exComposeFail] rfl⟩

/-- C10 counterexample: resolving either registered name through the
factory does not return a newly constructed adapter — the constructor
raises `AttributeError` on an undeclared settings field
(`STABILITY_ENGINE_ID` at `stability.py:24`, `OPENAI_BASE_URL` at
`dalle.py:22`) — and `get_available_providers` raises during the first
construction. -/
theorem factory_constructor_attribute_error :
    get_provider registeredProviders exSettingsKeys ("stability-ai") =
      .error ("AttributeError: STABILITY_ENGINE_ID") ∧
    get_provider registeredProviders exSettingsKeys ("dalle") =
      .error ("AttributeError: OPENAI_BASE_URL") ∧
    get_available_providers registeredProviders exSettingsKeys =
      .error ("AttributeError: STABILITY_ENGINE_ID") :=
  ⟨rfl, rfl, rfl⟩

/-- C10 (amended): `get_provider` returns `None` exactly for unregistered
names, and for a registered name it invokes that class's constructor
afresh on every lookup — no instance or cache is shared or reused — but
both registered constructors read settings `config.py` does not declare,
so the lookup raises `AttributeError` instead of returning an adapter,
and `get_available_providers` likewise raises during construction; no
adapter instance (hence no cache entry) is ever produced through the
factory, let alone survives across two resolutions. -/
theorem factory_fresh_construction_raises (s : Settings) (name : String) :
    (get_provider registeredProviders s name = .ok none ↔
      (name ≠ "stability-ai" ∧ name ≠ "dalle")) ∧
    (name = "stability-ai" →
      get_provider registeredProviders s name = (StabilityProvider.init s).map some ∧
      get_provider registeredProviders s name =
        .error ("AttributeError: STABILITY_ENGINE_ID")) ∧
    (name = "dalle" →
      get_provider registeredProviders s name = (DalleProvider.init s).map some ∧
      get_provider registeredProviders s name =
        .error ("AttributeError: OPENAI_BASE_URL")) ∧
    (∀ p, get_provider registeredProviders s name ≠ .ok (some p)) ∧
    get_available_providers registeredProviders s =
      .error ("AttributeError: STABILITY_ENGINE_ID") := by
  have hstab : get_provider registeredProviders s ("stability-ai") =
      .error ("AttributeError: STABILITY_ENGINE_ID") := rfl
  have hdal : get_provider registeredProviders s ("dalle") =
      .error ("AttributeError: OPENAI_BASE_URL") := rfl
  have hnone : ∀ nm, nm ≠ "stability-ai" → nm ≠ "dalle" →
      get_provider registeredProviders s nm = .ok none := by
    intro nm h1 h2
    unfold get_provider registeredProviders
    rw [List.find?_cons_of_neg _ (by simpa using Ne.symm h1),
      List.find?_cons_of_neg _ (by simpa using Ne.symm h2)]
    rfl
  refine ⟨⟨?_, ?_⟩, ?_, ?_, ?_, rfl⟩
  · intro h
    constructor
    · intro he
      subst he
      rw [hstab] at h
      exact Except.noConfusion h
    · intro he
      subst he
      rw [hdal] at h
      exact Except.noConfusion h
  · intro hne
    exact hnone name hne.1 hne.2
  · intro he
    subst he
    exact ⟨rfl, hstab⟩
  · intro he
    subst he
    exact ⟨rfl, hdal⟩
  · intro p hp
    by_cases h1 : name = "stability-ai"
    · subst h1
      rw [hstab] at hp
      exact Except.noConfusion hp
    · by_cases h2 : name = "dalle"
      · subst h2
        rw [hdal] at hp
        exact Except.noConfusion hp
      · rw [hnone name h1 h2] at hp
        simp at hp

/-- Witness for C10 (amended) at concrete inputs: an unregistered name
resolves to `None`; a registered name resolves to a fresh constructor
call, which raises. -/
theorem factory_fresh_construction_raises_witness :
    get_provider registeredProviders exSettingsNoKey ("nope") = .ok none ∧
    get_provider registeredProviders exSettingsNoKey ("stability-ai") =
      (StabilityProvider.init exSettingsNoKey).map some ∧
    get_provider registeredProviders exSettingsNoKey ("stability-ai") =
      .error ("AttributeError: STABILITY_ENGINE_ID") :=
  ⟨(factory_fresh_construction_raises exSettingsNoKey ("nope")).1.mpr (by decide),
    ((factory_fresh_construction_raises exSettingsNoKey ("stability-ai")).2.1 rfl).1,
    ((factory_fresh_construction_raises exSettingsNoKey ("stability-ai")).2.1 rfl).2⟩

/-- The adapter `except` clauses always return normally. -/
theorem stabilityExceptClauses_ok (ph : ImageMeta) (p : Except ImgExc ImageMeta × Cache) :
    ∃ m c, stabilityExceptClauses ph p = (.ok m, c) := by
  rcases p with ⟨r, c⟩
  cases r with
  | ok m => exact ⟨m, c, rfl⟩
  | error e => exact ⟨ph, c, rfl⟩

/-- One attempt of `StabilityProvider.generate_image` never raises. -/
theorem stabilityAttempt_never_raises (s : Settings) (slide : SlidePlan)
    (style : Option String) (env : StabilityEnv) (cache : Cache) :
    ∃ m c, stabilityAttempt s slide style env cache = (.ok m, c) := by
  unfold stabilityAttempt
  rcases hcg : cache_get s cache (build_prompt slide style) env.now with ⟨o, c2⟩
  cases o with
  | some m => exact ⟨m, c2, rfl⟩
  | none => exact stabilityExceptClauses_ok _ _

/-- One attempt of `DalleProvider.generate_image` either returns normally
or raises the `AttributeError` on the undeclared
`DALLE_PLACEHOLDER_URL` — it never produces a placeholder. -/
theorem dalleAttempt_ok_or_raise (s : Settings) (slide : SlidePlan)
    (style : Option String) (env : DalleEnv) (cache : Cache) :
    (∃ m c, dalleAttempt s slide style env cache = (.ok m, c)) ∨
    (∃ c, dalleAttempt s slide style env cache =
      (.error (.attributeErr ("AttributeError: DALLE_PLACEHOLDER_URL")), c)) := by
  unfold dalleAttempt
  rcases hcg : cache_get s cache (dalleBuildPrompt slide style) env.now with ⟨o, c2⟩
  cases o with
  | some m => exact Or.inl ⟨m, c2, rfl⟩
  | none =>
    rcases hb : dalleAttemptBody s slide env (dalleBuildPrompt slide style) c2 with ⟨r, c'⟩
    cases r with
    | ok m =>
      refine Or.inl ⟨m, c', ?_⟩
      show dalleExceptClauses (dalleAttemptBody s slide env (dalleBuildPrompt slide style) c2) = _
      rw [hb]
      rfl
    | error e =>
      refine Or.inr ⟨c', ?_⟩
      show dalleExceptClauses (dalleAttemptBody s slide env (dalleBuildPrompt slide style) c2) = _
      rw [hb]
      rfl

/-- A lookup that missed leaves the key absent: after a miss (absent or
lazily purged), looking the key up again in the resulting cache misses
without changing it. -/
theorem cache_get_after_miss (s : Settings) (c : Cache) (k : String) (now : Nat)
    (h : (cache_get s c k now).1 = none) :
    cache_get s ((cache_get s c k now).2) k now = (none, (cache_get s c k now).2) := by
  cases hg : dictGet c k with
  | none =>
    have h1 : cache_get s c k now = (none, c) := by
      unfold cache_get
      rw [hg]
    rw [h1]
    exact h1
  | some tv =>
    rcases tv with ⟨ts, v⟩
    by_cases hexp : s.imageCacheTtlSeconds < now - ts
    · have h1 : cache_get s c k now = (none, dictPop c k) := by
        unfold cache_get
        rw [hg]
        show (if s.imageCacheTtlSeconds < now - ts then
            ((none : Option ImageMeta), dictPop c k) else (some v, c)) = _
        rw [if_pos hexp]
      rw [h1]
      unfold cache_get
      rw [dictGet_dictPop]
    · have h1 : cache_get s c k now = (some v, c) := by
        unfold cache_get
        rw [hg]
        show (if s.imageCacheTtlSeconds < now - ts then
            ((none : Option ImageMeta), dictPop c k) else (some v, c)) = _
        rw [if_neg hexp]
      rw [h1] at h
      simp at h

/-- C1 counterexample: a parse failure of the legacy endpoint's 200
response makes `generate_image_for_slide` raise `ImageError` to its
caller (after a single attempt) instead of returning an `ImageMeta` —
exactly the behaviour the repository's own
`test_generate_image_for_slide_rate_limit` expects of this function. -/
theorem generate_image_for_slide_raises_on_parse_error :
    (generate_image_for_slide exSettingsKeys exSlide none (fun _ => exImgEnvParseFail) []).1 =
      .raised (.imageError ("Image request failed")
        (some (.validationErr ("ValidationError")))) ∧
    (generate_image_for_slide exSettingsKeys exSlide none (fun _ => exImgEnvParseFail) []).2.2 = 1 :=
  ⟨rfl, rfl⟩

/-- C1 (amended): `StabilityProvider.generate_image` is total — every
failure during its attempt resolves to an `ImageMeta` (the placeholder on
failure) in a single attempt, never raising.  The legacy
`generate_image_for_slide` raises `ImageError` on 429/parse/unexpected
failures, and the coordinator `generate_images` absorbs those raises into
the placeholder for that slide.  `DalleProvider.generate_image` is *not*
total: `config.py` declares no `DALLE_PLACEHOLDER_URL`, so every path
that would return the placeholder — including both `except` clauses —
raises `AttributeError`, and e.g. an upstream 429 surfaces as
`RetryError` after the three attempts. -/
theorem stability_total_legacy_absorbed_dalle_raises (s : Settings)
    (slide : SlidePlan) (style : Option String) :
    (∀ (envs : Nat → StabilityEnv) (cache : Cache),
      ∃ m c, StabilityProvider.generate_image s slide style envs cache = (.ok m, c, 1)) ∧
    (∀ tenv : ImgTaskEnv,
      (∃ m, (generate_image_for_slide s slide style tenv.attempts tenv.cache).1 = .ok m ∧
        generateImagesOne s style slide tenv = m) ∨
      generateImagesOne s style slide tenv = placeholderMeta s slide.title) ∧
    (∀ (env : DalleEnv) (cache : Cache),
      (∃ m c, dalleAttempt s slide style env cache = (.ok m, c)) ∨
      (∃ c, dalleAttempt s slide style env cache =
        (.error (.attributeErr ("AttributeError: DALLE_PLACEHOLDER_URL")), c))) ∧
    (∀ (env : DalleEnv) (cache : Cache) (r : HttpResp),
      env.post = .ok r → r.status = 429 →
      (cache_get s cache (dalleBuildPrompt slide style) env.now).1 = none →
      DalleProvider.generate_image s slide style (fun _ => env) cache =
        (.retriesExhausted (.attributeErr ("AttributeError: DALLE_PLACEHOLDER_URL")),
          (cache_get s cache (dalleBuildPrompt slide style) env.now).2, 3)) := by
  refine ⟨?_, ?_, ?_, ?_⟩
  · intro envs cache
    obtain ⟨m, c, h⟩ := stabilityAttempt_never_raises s slide style (envs 0) cache
    refine ⟨m, c, ?_⟩
    unfold StabilityProvider.generate_image
    simp [tenacityRun, h]
  · intro tenv
    unfold generateImagesOne
    cases hr : (generate_image_for_slide s slide style tenv.attempts tenv.cache).1 with
    | ok m => exact Or.inl ⟨m, rfl, rfl⟩
    | raised e => exact Or.inr rfl
    | retriesExhausted e => exact Or.inr rfl
  · intro env cache
    exact dalleAttempt_ok_or_raise s slide style env cache
  · intro env cache r hp hst hmiss
    have hat0 : dalleAttempt s slide style env cache =
        (.error (.attributeErr ("AttributeError: DALLE_PLACEHOLDER_URL")),
          (cache_get s cache (dalleBuildPrompt slide style) env.now).2) := by
      unfold dalleAttempt
      rcases hcg : cache_get s cache (dalleBuildPrompt slide style) env.now with ⟨o, c2⟩
      rw [hcg] at hmiss
      cases o with
      | some m => simp at hmiss
      | none =>
        unfold dalleAttemptBody
        rw [hp]
        simp [hst, dalleExceptClauses, dallePlaceholderExpr, settingsDallePlaceholderUrl]
    have hat1 : dalleAttempt s slide style env
        ((cache_get s cache (dalleBuildPrompt slide style) env.now).2) =
        (.error (.attributeErr ("AttributeError: DALLE_PLACEHOLDER_URL")),
          (cache_get s cache (dalleBuildPrompt slide style) env.now).2) := by
      have hm2 := cache_get_after_miss s cache (dalleBuildPrompt slide style) env.now hmiss
      unfold dalleAttempt
      rcases hcg : cache_get s
          ((cache_get s cache (dalleBuildPrompt slide style) env.now).2)
          (dalleBuildPrompt slide style) env.now with ⟨o2, c3⟩
      rw [hcg] at hm2
      injection hm2 with h1 h2
      subst h1
      subst h2
      unfold dalleAttemptBody
      rw [hp]
      simp [hst, dalleExceptClauses, dallePlaceholderExpr, settingsDallePlaceholderUrl]
    unfold DalleProvider.generate_image
    simp [tenacityRun, hat0, hat1]

/-- Witness for C1 (amended) at a concrete input: a 429 on every DALL-E
attempt with an empty cache surfaces as `RetryError` wrapping the
`AttributeError`, after exactly three attempts; the Stability adapter on
the same upstream answer returns the placeholder at once. -/
theorem stability_total_legacy_absorbed_dalle_raises_witness :
    (exDalleEnv429.post = .ok { status := 429 } ∧
      (cache_get exSettingsKeys [] (dalleBuildPrompt exSlide none) exDalleEnv429.now).1 =
        none) ∧
    DalleProvider.generate_image exSettingsKeys exSlide none (fun _ => exDalleEnv429) [] =
      (.retriesExhausted (.attributeErr ("AttributeError: DALLE_PLACEHOLDER_URL")), [], 3) ∧
    (∃ m c, StabilityProvider.generate_image exSettingsKeys exSlide none
      (fun _ => exStabEnv429) [] = (.ok m, c, 1)) :=
  ⟨⟨rfl, rfl⟩,
    (stability_total_legacy_absorbed_dalle_raises exSettingsKeys exSlide none).2.2.2
      exDalleEnv429 [] { status := 429 } rfl rfl rfl,
    (stability_total_legacy_absorbed_dalle_raises exSettingsKeys exSlide none).1
      (fun _ => exStabEnv429) []⟩

/-- C2 counterexample: on an upstream 429 the legacy
`generate_image_for_slide` raises `ImageError` (no retry, but also no
placeholder and no normal return), rather than resolving to a placeholder
`ImageMeta`. -/
theorem generate_image_for_slide_raises_on_429 :
    (generate_image_for_slide exSettingsKeys exSlide none (fun _ => exImgEnv429) []).1 =
      .raised (.imageError ("Image request failed")
        (some (.imageError ("Rate limited by Stability API") none))) ∧
    (∀ m : ImageMeta,
      (generate_image_for_slide exSettingsKeys exSlide none (fun _ => exImgEnv429) []).1 ≠
        .ok m) :=
  ⟨rfl, fun m h => nomatch h⟩

/-- C2 (amended): on an upstream 429 the Stability adapter resolves the
request to the placeholder `ImageMeta` in a single attempt — no retry, no
raise; the legacy `generate_image_for_slide` likewise does not retry a
429 (its retry predicate excludes `ImageError`) but raises `ImageError`,
which `generate_images` absorbs into the placeholder for that slide. -/
theorem providers_429_placeholder_no_retry (s : Settings) (slide : SlidePlan)
    (style : Option String) :
    (∀ (envs : Nat → StabilityEnv) (cache : Cache) (r : HttpResp),
      (envs 0).post = .ok r → r.status = 429 →
      (cache_get s cache (build_prompt slide style) (envs 0).now).1 = none →
      StabilityProvider.generate_image s slide style envs cache =
        (.ok (placeholderMeta s slide.title),
          (cache_get s cache (build_prompt slide style) (envs 0).now).2, 1)) ∧
    (∀ (envs : Nat → LegacyImgEnv) (cache : Cache) (r : HttpResp),
      (envs 0).payloadBuild = .ok () → (envs 0).post1 = .ok r → r.status = 429 →
      (cache_get s cache (build_prompt slide style) (envs 0).now).1 = none →
      (generate_image_for_slide s slide style envs cache).1 =
        .raised (.imageError ("Image request failed")
          (some (.imageError ("Rate limited by Stability API") none))) ∧
      (generate_image_for_slide s slide style envs cache).2.2 = 1 ∧
      generateImagesOne s style slide ⟨envs, cache⟩ = placeholderMeta s slide.title) := by
  refine ⟨?_, ?_⟩
  · intro envs cache r hp hst hmiss
    have hat : stabilityAttempt s slide style (envs 0) cache =
        (.ok (placeholderMeta s slide.title),
          (cache_get s cache (build_prompt slide style) (envs 0).now).2) := by
      unfold stabilityAttempt
      rcases hcg : cache_get s cache (build_prompt slide style) (envs 0).now with ⟨o, c2⟩
      rw [hcg] at hmiss
      cases o with
      | some m => simp at hmiss
      | none =>
        unfold stabilityAttemptBody
        rw [hp]
        simp [hst, stabilityExceptClauses]
    unfold StabilityProvider.generate_image
    simp [tenacityRun, hat]
  · intro envs cache r hpay hp hst hmiss
    have hat : legacyAttempt s slide style (envs 0) cache =
        (.error (.imageError ("Image request failed")
            (some (.imageError ("Rate limited by Stability API") none))),
          (cache_get s cache (build_prompt slide style) (envs 0).now).2) := by
      unfold legacyAttempt
      rcases hcg : cache_get s cache (build_prompt slide style) (envs 0).now with ⟨o, c2⟩
      rw [hcg] at hmiss
      cases o with
      | some m => simp at hmiss
      | none =>
        unfold legacyAttemptBody
        rw [hpay, hp]
        simp [hst, legacyExceptClauses, ImgExc.isHttpxError]
    have hrun : generate_image_for_slide s slide style envs cache =
        (.raised (.imageError ("Image request failed")
            (some (.imageError ("Rate limited by Stability API") none))),
          (cache_get s cache (build_prompt slide style) (envs 0).now).2, 1) := by
      unfold generate_image_for_slide
      simp [tenacityRun, hat, ImgExc.isImageError]
    refine ⟨by rw [hrun], by rw [hrun], ?_⟩
    unfold generateImagesOne
    rw [show (⟨envs, cache⟩ : ImgTaskEnv).attempts = envs from rfl,
      show (⟨envs, cache⟩ : ImgTaskEnv).cache = cache from rfl, hrun]

/-- Witness for C2 (amended) at a concrete input: both functions observe
a 429 from their first upstream call, with an empty cache. -/
theorem providers_429_placeholder_no_retry_witness :
    ((fun _ : Nat => exStabEnv429) 0).post = .ok { status := 429 } ∧
    StabilityProvider.generate_image exSettingsKeys exSlide none (fun _ => exStabEnv429) [] =
      (.ok (placeholderMeta exSettingsKeys exSlide.title), [], 1) ∧
    generateImagesOne exSettingsKeys none exSlide ⟨fun _ => exImgEnv429, []⟩ =
      placeholderMeta exSettingsKeys exSlide.title :=
  ⟨rfl,
    (providers_429_placeholder_no_retry exSettingsKeys exSlide none).1
      (fun _ => exStabEnv429) [] { status := 429 } rfl rfl rfl,
    ((providers_429_placeholder_no_retry exSettingsKeys exSlide none).2
      (fun _ => exImgEnv429) [] { status := 429 } rfl rfl rfl rfl).2.2⟩

/-- C3: the Image Enrichment Coordinator returns, without raising, a list
of exactly the input's length whose element at position `i` is the result
produced for input slide `i`, regardless of the completion order of the
individual image tasks; a slide whose generation does not return normally
yields the placeholder carrying that slide's title as `altText`. -/
theorem generate_images_order_and_length (s : Settings) (slides : List SlidePlan)
    (style : Option String) (envs : List ImgTaskEnv) (order : List Nat)
    (hlen : envs.length = slides.length)
    (hperm : order.Perm (List.range slides.length)) :
    (generate_images s slides style envs order).length = slides.length ∧
    (optStrFalsy s.stabilityApiKey = true →
      generate_images s slides style envs order =
        slides.map (fun sl => placeholderMeta s sl.title)) ∧
    (optStrFalsy s.stabilityApiKey = false →
      generate_images s slides style envs order =
        (slides.zip envs).map (fun p => generateImagesOne s style p.1 p.2)) ∧
    (∀ p ∈ slides.zip envs,
      (∀ m, (generate_image_for_slide s p.1 style p.2.attempts p.2.cache).1 ≠ .ok m) →
      generateImagesOne s style p.1 p.2 = placeholderMeta s p.1.title) := by
  have hzlen : (slides.zip envs).length = slides.length := by
    rw [List.length_zip, hlen]
    exact Nat.min_self _
  have hkeyBranch : optStrFalsy s.stabilityApiKey = false →
      generate_images s slides style envs order =
        (slides.zip envs).map (fun p => generateImagesOne s style p.1 p.2) := by
    intro hkey
    unfold generate_images
    rw [if_neg (by simp [hkey])]
    apply asyncGather_perm
    rw [List.length_map, hzlen]
    exact hperm
  have hnoKeyBranch : optStrFalsy s.stabilityApiKey = true →
      generate_images s slides style envs order =
        slides.map (fun sl => placeholderMeta s sl.title) := by
    intro hkey
    unfold generate_images
    rw [if_pos hkey]
  refine ⟨?_, hnoKeyBranch, hkeyBranch, ?_⟩
  · cases hkey : optStrFalsy s.stabilityApiKey with
    | true => rw [hnoKeyBranch hkey, List.length_map]
    | false => rw [hkeyBranch hkey, List.length_map, hzlen]
  · intro p hp hfail
    unfold generateImagesOne
    cases hr : (generate_image_for_slide s p.1 style p.2.attempts p.2.cache).1 with
    | ok m => exact absurd hr (hfail m)
    | raised e => rfl
    | retriesExhausted e => rfl

/-- Witness for C3 at a concrete input: two slides, each resolving to the
placeholder (429 upstream), completing out of order. -/
theorem generate_images_order_and_length_witness :
    ([exTask429, exTask429].length = [exSlide, exSlide2].length ∧
      [1, 0].Perm (List.range [exSlide, exSlide2].length)) ∧
    ((generate_images exSettingsKeys [exSlide, exSlide2] none [exTask429, exTask429] [1, 0]).length =
      [exSlide, exSlide2].length ∧
    (optStrFalsy exSettingsKeys.stabilityApiKey = false →
      generate_images exSettingsKeys [exSlide, exSlide2] none [exTask429, exTask429] [1, 0] =
        ([exSlide, exSlide2].zip [exTask429, exTask429]).map
          (fun p => generateImagesOne exSettingsKeys none p.1 p.2))) :=
  ⟨⟨rfl, by decide⟩,
    (generate_images_order_and_length exSettingsKeys [exSlide, exSlide2] none
      [exTask429, exTask429] [1, 0] rfl (by decide)).1,
    (generate_images_order_and_length exSettingsKeys [exSlide, exSlide2] none
      [exTask429, exTask429] [1, 0] rfl (by decide)).2.2.1⟩

end PPTX
